import Mathlib

/-!
D3DModule: render-backend hooks and frame lifecycle.

A shallow embedding of `mhw-cs-plugin-loader/D3DModule.cpp`.

* The member fields of the `D3DModule` object are a record, and every member function is a
  function from the record before the call to the record after it.
* Everything the module does to the outside world (calls into Direct3D, ImGui, the managed
  render callbacks, the primitive-rendering module, the texture manager, the log, and the calls
  through the hook handles to the original host functions) is recorded, in program order, as a
  list of `Event`s.
* Everything the outside world answers during one activation (results of Direct3D calls, the
  configuration, the return value of the original host function) is read from a `Host` record.
* Pointers are `Option Handle`: `none` is the null pointer.  Machine integers are `Nat` or `Int`,
  reduced explicitly where the source relies on a fixed width.

The embedding follows the control flow of the source.  It does not give a meaning to undefined
behaviour (dereferencing a null pointer, indexing a vector outside its bounds): such a call is
recorded with the null handle it was issued on.
-/

/-- A non-null pointer value. -/
abbrev Handle := Nat

/-- The two `dlog` levels used by the module. -/
inductive LogLevel where
  | debug
  | error
deriving DecidableEq, Repr

/-- The two resource states the frame sequence moves a back buffer between. -/
inductive D3D12_RESOURCE_STATES where
  | PRESENT
  | RENDER_TARGET
deriving DecidableEq, Repr

/-- The descriptor heap types the module creates. -/
inductive D3D12_DESCRIPTOR_HEAP_TYPE where
  | CBV_SRV_UAV
  | RTV
deriving DecidableEq, Repr

/-- The command list type reported by `ID3D12CommandQueue::GetDesc`. -/
inductive D3D12_COMMAND_LIST_TYPE where
  | DIRECT
  | BUNDLE
  | COMPUTE
  | COPY
deriving DecidableEq, Repr

/-- A width and height pair, as passed to the managed `Initialize` callback. -/
structure MtSize where
  w : Nat
  h : Nat
deriving DecidableEq, Repr

/-- The Win32 rectangle filled in by `GetClientRect`. -/
structure RECT where
  left : Int := 0
  top : Int := 0
  right : Int := 0
  bottom : Int := 0
deriving DecidableEq, Repr

/-- The fields of `DXGI_SWAP_CHAIN_DESC` that `D3DModule.cpp` reads. -/
structure DXGI_SWAP_CHAIN_DESC where
  Width : Nat := 0
  Height : Nat := 0
  BufferCount : Nat := 0
  OutputWindow : Option Handle := none
deriving DecidableEq, Repr

/-- Conversion of a signed difference to `u32`, as done by the cast `(u32)(a - b)`. -/
def to_u32 (x : Int) : Nat := (x % 4294967296).toNat

/-- One observable action of the module, in the order the source performs them. -/
inductive Event where
  | log (level : LogLevel) (msg : String)
  -- calls through the hook handles to the original host functions
  | present_call (swap_chain : Handle) (sync_interval flags : Nat)
  | resize_buffers_call (swap_chain : Handle) (buffer_count w h format flags : Nat)
  | execute_command_lists_call (command_queue : Handle) (num_command_lists : Nat)
      (command_lists : Handle)
  | signal_call (command_queue : Handle) (fence : Option Handle) (value : Nat)
  -- primitive-rendering module
  | prm_late_init (swap_chain : Handle)
  | prm_shutdown
  | prm_render_primitives_for_d3d12 (swap_chain : Handle) (command_queue : Option Handle)
  | prm_render_primitives_for_d3d11 (device_context : Option Handle)
  -- managed render callbacks
  | core_render
  | core_imgui_render
  | core_initialize_imgui (viewport_size window_size : MtSize) (is_d3d12 : Bool)
      (menu_key : String)
  | core_get_custom_fonts
  | core_resolve_custom_fonts
  -- ImGui
  | igSetCurrentContext (context : Option Handle)
  | ImFontAtlas_Clear
  | request_chunk (name : String)
  | ImFontAtlas_AddFontFromMemoryTTF (file : String)
  | ImFontAtlas_AddFontFromFileTTF (index : Nat)
  | ImFontAtlas_Build
  | ImFontConfig_destroy
  | ImGui_ImplWin32_Init (window : Option Handle)
  | ImGui_ImplWin32_EnableDpiAwareness
  | ImGui_ImplDX12_Init (device : Option Handle) (num_frames : Nat) (srv_heap : Option Handle)
  | ImGui_ImplDX12_CreateDeviceObjects
  | ImGui_ImplDX11_Init (device device_context : Option Handle)
  | ImGui_ImplDX12_Shutdown
  | ImGui_ImplDX11_Shutdown
  | ImGui_ImplWin32_Shutdown
  | ImGui_ImplDX12_NewFrame
  | ImGui_ImplDX11_NewFrame
  | ImGui_ImplWin32_NewFrame
  | ImGui_ImplDX12_RenderDrawData (draw_data : Option Handle) (command_list : Option Handle)
  | ImGui_ImplDX11_RenderDrawData (draw_data : Option Handle)
  | igUpdatePlatformWindows
  | igRenderPlatformWindowsDefault (command_list : Option Handle)
  -- Win32
  | CreateEvent
  | SetWindowLongPtr_wndproc (window : Option Handle)
  -- DXGI and Direct3D
  | GetDevice (swap_chain : Handle)
  | GetImmediateContext (device : Handle)
  | CreateDescriptorHeap (type : D3D12_DESCRIPTOR_HEAP_TYPE) (num_descriptors : Nat)
  | CreateCommandAllocator
  | CreateCommandList (command_allocator : Handle)
  | CreateRenderTargetView (resource : Handle) (descriptor : Nat)
  | CommandAllocator_Reset (command_allocator : Option Handle)
  | CommandList_Reset (command_list command_allocator : Option Handle)
  | ResourceBarrier (command_list resource : Option Handle)
      (before after : D3D12_RESOURCE_STATES)
  | OMSetRenderTargets (command_list : Option Handle) (descriptor : Nat)
  | SetDescriptorHeaps (command_list heap : Option Handle)
  | CommandList_Close (command_list : Option Handle)
  | ExecuteCommandLists (command_queue : Option Handle) (command_list : Option Handle)
  -- texture manager
  | texture_manager_new
  | texture_manager_update_command_queue (command_queue : Handle)
  | texture_manager_register_texture (texture : Option Handle)
  | texture_manager_load_texture (path : String)
  | texture_manager_unload_texture (handle : Option Handle)
  -- the window procedure
  | ImGui_ImplWin32_WndProcHandler (hwnd : Option Handle) (msg wparam lparam : Nat)
  | CallWindowProc (window_proc hwnd : Option Handle) (msg wparam lparam : Nat)
  -- start-up: CoreClr, the address repository, the pattern scanner, the hook library
  | AddDllDirectory (path : String)
  | get_method (type_name method_name : String)
  | add_internal_call (name : String)
  | get_repository_address (key : String)
  | get_singleton (name : String)
  | find_first (pattern : String)
  | read_memory (address : Nat)
  | call_isD3D12 (address : Nat)
  | create_inline (target : Nat) (replacement : String)
  | create_mid (target : Nat) (probe : String)
  | title_menu_ready_hook_reset
  | title_menu_ready_call (gui : Handle)
  | FindWindowA (window_name : String)
  | RegisterClassEx (window_class : Handle)
  | CreateWindow (window_class : Handle)
  | DestroyWindow (window : Option Handle)
  | UnregisterClass (window_class : Handle)
  | GetModuleHandleA (module_name : String)
deriving Repr

/-- The per-back-buffer bundle `FrameContext` held in `m_d3d12_frame_contexts`. -/
structure FrameContext where
  CommandAllocator : Option Handle := none
  RenderTarget : Option Handle := none
  RenderTargetDescriptor : Nat := 0
deriving DecidableEq, Repr, Inhabited

/-- Modelled from the spec: the `TextureManager` class, whose header and implementation are not
part of the sources.  The spec says it is "constructed with backend device/queue/descriptor-heap
handles once resolved"; the model keeps exactly the handles it was constructed with, and the
queue given later through `update_command_queue`. -/
inductive TextureManager where
  | d3d12 (device command_queue srv_heap : Option Handle)
  | d3d11 (device device_context : Option Handle)
deriving DecidableEq, Repr

/-- Modelled from the spec: `TextureManager::update_command_queue`, which replaces the queue the
D3D12 texture manager was constructed with. -/
def TextureManager.update_command_queue (tm : TextureManager) (command_queue : Handle) :
    TextureManager :=
  match tm with
  | .d3d12 device _ srv_heap => .d3d12 device (some command_queue) srv_heap
  | .d3d11 device device_context => .d3d11 device device_context

/-- The member fields of `D3DModule` that `D3DModule.cpp` reads or writes (the class declaration
itself is in a header that is not part of the sources).  The initial values are those of a
freshly constructed module. -/
structure D3DModule where
  -- managed callbacks resolved by `initialize`
  m_core_render : Option Handle := none
  m_core_imgui_render : Option Handle := none
  m_core_initialize_imgui : Option Handle := none
  m_core_get_custom_fonts : Option Handle := none
  m_core_resolve_custom_fonts : Option Handle := none
  m_get_singleton : Option Handle := none
  -- hook handles: the address each one is installed at, `none` when not installed
  m_title_menu_ready_hook : Option Handle := none
  m_d3d_present_hook : Option Handle := none
  m_d3d_present_hook_alt : Option Handle := none
  m_d3d_execute_command_lists_hook : Option Handle := none
  m_d3d_signal_hook : Option Handle := none
  m_d3d_resize_buffers_hook : Option Handle := none
  -- backend and windows
  m_is_d3d12 : Bool := false
  m_game_window : Option Handle := none
  m_game_window_proc : Option Handle := none
  m_temp_window : Option Handle := none
  m_temp_window_class : Option Handle := none
  m_d3d12_module : Option Handle := none
  m_d3d11_module : Option Handle := none
  -- D3D12 objects
  m_d3d12_device : Option Handle := none
  m_d3d12_command_queue : Option Handle := none
  m_d3d12_srv_heap : Option Handle := none
  m_d3d12_back_buffers : Option Handle := none
  m_d3d12_command_list : Option Handle := none
  m_d3d12_frame_contexts : List FrameContext := []
  m_d3d12_buffer_count : Nat := 0
  m_d3d12_fence : Option Handle := none
  m_d3d12_fence_value : Nat := 0
  -- D3D11 objects
  m_d3d11_device : Option Handle := none
  m_d3d11_device_context : Option Handle := none
  -- lifecycle
  m_is_initialized : Bool := false
  m_is_inside_present : Bool := false
  m_fonts_loaded : Bool := false
  m_texture_manager : Option TextureManager := none
deriving DecidableEq, Repr

/-- What the host process, the graphics runtime and the configuration answer during one hook
activation.  A call that reports failure answers `none` (for calls that hand out an object) or
`false`. -/
structure Host where
  -- preloader::LoaderConfig
  primitive_rendering_enabled : Bool := false
  menu_key : String := ""
  -- IDXGISwapChain
  GetDevice : Option Handle := none
  GetDesc : Option DXGI_SWAP_CHAIN_DESC := none
  GetBuffer : Nat → Option Handle := fun _ => none
  GetCurrentBackBufferIndex : Nat := 0
  -- Win32
  client_rect : RECT := {}
  wndproc_is_my_window_proc : Bool := false
  previous_wndproc : Option Handle := none
  -- ID3D12Device; `D3D12_DESCRIPTOR_HEAP_SIZE` is a compile-time constant declared in a header
  -- that is not part of the sources
  D3D12_DESCRIPTOR_HEAP_SIZE : Nat := 0
  CreateDescriptorHeap_srv : Option Handle := none
  CreateCommandAllocator : Option Handle := none
  CreateCommandList : Option Handle := none
  Close : Bool := false
  CreateDescriptorHeap_rtv : Option Handle := none
  GetDescriptorHandleIncrementSize : Nat := 0
  GetCPUDescriptorHandleForHeapStart : Nat := 0
  -- ID3D11Device
  GetImmediateContext : Option Handle := none
  -- ID3D12CommandQueue::GetDesc().Type of the queue a submission is made on
  queue_type : Handle → D3D12_COMMAND_LIST_TYPE := fun _ => .DIRECT
  -- ImGui and the managed callbacks
  core_initialize_imgui : Option Handle := none
  custom_font_count : Nat := 0
  ImGui_ImplWin32_Init : Bool := false
  ImGui_ImplDX12_Init : Bool := false
  ImGui_ImplDX12_CreateDeviceObjects : Bool := false
  ImGui_ImplDX11_Init : Bool := false
  core_imgui_render : Option Handle := none
  viewports_enabled : Bool := false
  -- `m_get_singleton("sFacility")`: `none` when the singleton is null, otherwise the `u32`
  -- read at offset `0x348 + 0x444`
  facility_state : Option Nat := none
  -- results of the original host functions
  present_original : Handle → Nat → Nat → Int := fun _ _ _ => 0
  resize_buffers_original : Handle → Nat → Nat → Nat → Nat → Nat → Int :=
    fun _ _ _ _ _ _ => 0
  signal_original : Handle → Option Handle → Nat → Nat := fun _ _ _ => 0
  -- preloader::LoaderConfig::get_imgui_rendering_enabled
  imgui_rendering_enabled : Bool := false
  -- CoreClr::get_method, by type name and method name
  get_method : String → String → Option Handle := fun _ _ => none
  -- NativePluginFramework::get_repository_address; `0` when the key is not resolved
  get_repository_address : String → Nat := fun _ => 0
  -- the managed `GetSingletonNative`, as an address
  get_singleton : String → Nat := fun _ => 0
  -- PatternScanner::find_first, a `uintptr_t`; `0` when the signature is not found
  find_first : Nat := 0
  -- the 32-bit signed integer and the 64-bit pointer stored at an address of the host
  read_int : Nat → Int := fun _ => 0
  read_pointer : Nat → Nat := fun _ => 0
  -- the result of the routine `cD3DRender::isD3D12`
  isD3D12 : Bool := false
  -- Win32 at start-up
  FindWindowA : Option Handle := none
  new_WNDCLASSEX : Handle := 1
  RegisterClassEx : Bool := false
  CreateWindow : Option Handle := none
  GetModuleHandleA : String → Option Handle := fun _ => none
  -- TextureManager results
  texture_manager_register_texture : Option Handle → Option Handle := fun _ => none
  texture_manager_load_texture : String → Option Handle := fun _ => none
  -- the result of `CallWindowProc`
  CallWindowProc : Option Handle → Option Handle → Nat → Nat → Nat → Int :=
    fun _ _ _ _ _ => 0

namespace D3DModule

/-- The `for` loop of `imgui_load_fonts` over the custom fonts:
`font.Font = ImFontAtlas_AddFontFromFileTTF(...)` and a debug line for each index. -/
def load_custom_fonts : (remaining i : Nat) → List Event
  | 0, _ => []
  | k + 1, i =>
    [.ImFontAtlas_AddFontFromFileTTF i, .log .debug "Loaded custom font: \x7b\x7d - \x7b\x7d"]
      ++ load_custom_fonts k (i + 1)

/-- `D3DModule::imgui_load_fonts`. -/
def imgui_load_fonts (host : Host) (self : D3DModule) : D3DModule × List Event :=
  if self.m_fonts_loaded then
    (self, [])
  else
    ({ self with m_fonts_loaded := true },
      [.ImFontAtlas_Clear, .core_get_custom_fonts, .request_chunk "Default",
        .ImFontAtlas_AddFontFromMemoryTTF "/Resources/Roboto-Medium.ttf",
        .ImFontAtlas_AddFontFromMemoryTTF "/Resources/NotoSansJP-Regular.ttf",
        .ImFontAtlas_AddFontFromMemoryTTF "/Resources/fa-solid-900.ttf"]
      ++ load_custom_fonts host.custom_font_count 0
      ++ [.ImFontAtlas_Build, .ImFontConfig_destroy, .core_resolve_custom_fonts])

/-- `std::vector::resize(count, FrameContext{})`: keeps the first `count` entries and pads with
value-initialised entries up to `count`. -/
def resize (v : List FrameContext) (count : Nat) : List FrameContext :=
  v.take count ++ List.replicate (count - v.length) ({} : FrameContext)

/-- The first `for` loop of `d3d12_initialize_imgui`:
`m_d3d12_frame_contexts[i].CommandAllocator = command_allocator` for `i` from the current index
up to the buffer count. -/
def assign_command_allocator (command_allocator : Handle) :
    (remaining i : Nat) → List FrameContext → List FrameContext
  | 0, _, v => v
  | k + 1, i, v =>
    assign_command_allocator command_allocator k (i + 1)
      (v.set i { v.getD i ({} : FrameContext) with CommandAllocator := some command_allocator })

/-- The second `for` loop of `d3d12_initialize_imgui`: for each back buffer index fetch the buffer,
create its render-target view at `rtv_handle`, store both in the frame context, and advance
`rtv_handle.ptr` (a 64-bit `SIZE_T`) by the descriptor size.  The first component of the result
is `false` when a `GetBuffer` call failed and the function returned from inside the loop. -/
def create_render_target_views (host : Host) (rtv_descriptor_size : Nat) :
    (remaining i rtv_handle : Nat) → List FrameContext → Bool × List FrameContext × List Event
  | 0, _, _, v => (true, v, [])
  | k + 1, i, rtv_handle, v =>
    match host.GetBuffer i with
    | none => (false, v, [.log .error "Failed to get DXGI swap chain buffer"])
    | some back_buffer =>
      let v1 := v.set i { v.getD i ({} : FrameContext) with
        RenderTargetDescriptor := rtv_handle, RenderTarget := some back_buffer }
      let r := create_render_target_views host rtv_descriptor_size k (i + 1)
        ((rtv_handle + rtv_descriptor_size) % 18446744073709551616) v1
      (r.1, r.2.1,
        [.log .debug "Creating RTV for back buffer \x7b\x7d, with size \x7b\x7dx\x7b\x7d",
          .CreateRenderTargetView back_buffer rtv_handle] ++ r.2.2)

/-- `D3DModule::d3d12_initialize_imgui`.  The writes to the local `desc.Flags` and
`desc.Windowed` are omitted: `desc` is only read for `BufferCount` afterwards. -/
def d3d12_initialize_imgui (host : Host) (self : D3DModule) (swap_chain : Handle) :
    D3DModule × List Event :=
  let self := { self with m_d3d12_device := host.GetDevice }
  let ev := [Event.GetDevice swap_chain]
  match host.GetDevice with
  | none => (self, ev ++ [.log .error "Failed to get D3D12 device in present hook"])
  | some _ =>
  match host.GetDesc with
  | none => (self, ev ++ [.log .error "Failed to get DXGI swap chain description"])
  | some desc =>
  let viewport_size : MtSize := ⟨desc.Width, desc.Height⟩
  let window_size : MtSize :=
    ⟨to_u32 (host.client_rect.right - host.client_rect.left),
      to_u32 (host.client_rect.bottom - host.client_rect.top)⟩
  let ev := ev ++ [.core_initialize_imgui viewport_size window_size true host.menu_key,
    .igSetCurrentContext host.core_initialize_imgui]
  let fonts := imgui_load_fonts host self
  let self := fonts.1
  let ev := ev ++ fonts.2 ++ [.CreateEvent]
  let self := { self with m_game_window := desc.OutputWindow }
  let self := { self with m_d3d12_buffer_count := desc.BufferCount }
  let self := { self with
    m_d3d12_frame_contexts := resize self.m_d3d12_frame_contexts desc.BufferCount }
  let self := { self with m_d3d12_srv_heap := host.CreateDescriptorHeap_srv }
  let ev := ev ++ [.CreateDescriptorHeap .CBV_SRV_UAV host.D3D12_DESCRIPTOR_HEAP_SIZE]
  match host.CreateDescriptorHeap_srv with
  | none =>
    (self, ev ++ [.log .error "Failed to create D3D12 descriptor heap for back buffers"])
  | some _ =>
  let ev := ev ++ [.CreateCommandAllocator]
  match host.CreateCommandAllocator with
  | none => (self, ev ++ [.log .error "Failed to create D3D12 command allocator"])
  | some command_allocator =>
  let self := { self with
    m_d3d12_frame_contexts :=
      assign_command_allocator command_allocator desc.BufferCount 0
        self.m_d3d12_frame_contexts }
  let self := { self with m_d3d12_command_list := host.CreateCommandList }
  let ev := ev ++ [.CreateCommandList command_allocator]
  match host.CreateCommandList with
  | none => (self, ev ++ [.log .error "Failed to create D3D12 command list"])
  | some _ =>
  let ev := ev ++ [.CommandList_Close self.m_d3d12_command_list]
  if !host.Close then
    (self, ev ++ [.log .error "Failed to close D3D12 command list"])
  else
  let self := { self with m_d3d12_back_buffers := host.CreateDescriptorHeap_rtv }
  let ev := ev ++ [.CreateDescriptorHeap .RTV desc.BufferCount]
  match host.CreateDescriptorHeap_rtv with
  | none =>
    (self, ev ++ [.log .error "Failed to create D3D12 descriptor heap for back buffers"])
  | some _ =>
  let rtv_descriptor_size := host.GetDescriptorHandleIncrementSize % 4294967296
  let rtv_handle := host.GetCPUDescriptorHandleForHeapStart % 18446744073709551616
  let views := create_render_target_views host rtv_descriptor_size desc.BufferCount 0
    rtv_handle self.m_d3d12_frame_contexts
  let self := { self with m_d3d12_frame_contexts := views.2.1 }
  let ev := ev ++ views.2.2
  if !views.1 then
    (self, ev)
  else
  let ev := ev ++ [.ImGui_ImplWin32_Init self.m_game_window]
  if !host.ImGui_ImplWin32_Init then
    (self, ev ++ [.log .error "Failed to initialize ImGui Win32"])
  else
  let ev := ev ++ [.ImGui_ImplWin32_EnableDpiAwareness,
    .ImGui_ImplDX12_Init self.m_d3d12_device desc.BufferCount self.m_d3d12_srv_heap]
  if !host.ImGui_ImplDX12_Init then
    (self, ev ++ [.log .error "Failed to initialize ImGui D3D12"])
  else
  let ev := ev ++ [.ImGui_ImplDX12_CreateDeviceObjects]
  if !host.ImGui_ImplDX12_CreateDeviceObjects then
    (self, ev ++ [.log .error "Failed to create ImGui D3D12 device objects"])
  else
  let hooked :=
    if !host.wndproc_is_my_window_proc then
      ({ self with m_game_window_proc := host.previous_wndproc },
        [Event.SetWindowLongPtr_wndproc self.m_game_window])
    else (self, [])
  let self := hooked.1
  let ev := ev ++ hooked.2
  let self := { self with m_is_initialized := true }
  (self, ev ++ [.log .debug "Initialized D3D12"])

/-- `D3DModule::d3d11_initialize_imgui`. -/
def d3d11_initialize_imgui (host : Host) (self : D3DModule) (swap_chain : Handle) :
    D3DModule × List Event :=
  let self := { self with m_d3d11_device := host.GetDevice }
  let ev := [Event.GetDevice swap_chain]
  match host.GetDevice with
  | none => (self, ev ++ [.log .error "Failed to get D3D11 device in present hook"])
  | some device =>
  let self := { self with m_d3d11_device_context := host.GetImmediateContext }
  let ev := ev ++ [.GetImmediateContext device]
  match host.GetDesc with
  | none => (self, ev ++ [.log .error "Failed to get DXGI swap chain description"])
  | some desc =>
  let viewport_size : MtSize := ⟨desc.Width, desc.Height⟩
  let window_size : MtSize :=
    ⟨to_u32 (host.client_rect.right - host.client_rect.left),
      to_u32 (host.client_rect.bottom - host.client_rect.top)⟩
  let ev := ev ++ [.core_initialize_imgui viewport_size window_size false host.menu_key,
    .igSetCurrentContext host.core_initialize_imgui]
  let fonts := imgui_load_fonts host self
  let self := fonts.1
  let ev := ev ++ fonts.2 ++ [.ImGui_ImplWin32_Init self.m_game_window]
  if !host.ImGui_ImplWin32_Init then
    (self, ev ++ [.log .error "Failed to initialize ImGui Win32"])
  else
  let ev := ev ++ [.ImGui_ImplDX11_Init self.m_d3d11_device self.m_d3d11_device_context]
  if !host.ImGui_ImplDX11_Init then
    (self, ev ++ [.log .error "Failed to initialize ImGui D3D11"])
  else
  let ev := ev ++ [.SetWindowLongPtr_wndproc self.m_game_window]
  let self := { self with m_game_window_proc := host.previous_wndproc }
  let self := { self with m_is_initialized := true }
  (self, ev ++ [.log .debug "Initialized D3D11"])

/-- `D3DModule::d3d12_deinitialize_imgui`. -/
def d3d12_deinitialize_imgui (self : D3DModule) : D3DModule × List Event :=
  ({ self with
      m_d3d12_frame_contexts := []
      m_d3d12_back_buffers := none
      m_d3d12_srv_heap := none
      m_d3d12_command_list := none
      m_d3d12_fence := none
      m_d3d12_fence_value := 0
      m_d3d12_buffer_count := 0 },
    [.log .debug "Uninitializing D3D12 ImGui", .ImGui_ImplDX12_Shutdown,
      .ImGui_ImplWin32_Shutdown])

/-- `D3DModule::d3d11_deinitialize_imgui`. -/
def d3d11_deinitialize_imgui (self : D3DModule) : D3DModule × List Event :=
  ({ self with m_d3d11_device_context := none, m_d3d11_device := none },
    [.ImGui_ImplDX11_Shutdown, .ImGui_ImplWin32_Shutdown])

/-- `D3DModule::d3d12_present_hook_core`.  It writes no member field, so only its events are
returned.  `m_d3d12_frame_contexts[index]` outside the vector is undefined in the source; the
embedding then records the calls with a value-initialised frame context. -/
def d3d12_present_hook_core (host : Host) (self : D3DModule) (swap_chain : Handle) :
    List Event :=
  let primitives :=
    if host.primitive_rendering_enabled then
      [Event.core_render, .prm_render_primitives_for_d3d12 swap_chain self.m_d3d12_command_queue]
    else []
  let draw_data := host.core_imgui_render
  let frame_ctx := self.m_d3d12_frame_contexts.getD host.GetCurrentBackBufferIndex {}
  let viewports :=
    if host.viewports_enabled then
      [Event.igUpdatePlatformWindows, .igRenderPlatformWindowsDefault self.m_d3d12_command_list]
    else []
  primitives ++
    [.ImGui_ImplDX12_NewFrame, .ImGui_ImplWin32_NewFrame, .core_imgui_render,
      .CommandAllocator_Reset frame_ctx.CommandAllocator,
      .CommandList_Reset self.m_d3d12_command_list frame_ctx.CommandAllocator,
      .ResourceBarrier self.m_d3d12_command_list frame_ctx.RenderTarget .PRESENT .RENDER_TARGET,
      .OMSetRenderTargets self.m_d3d12_command_list frame_ctx.RenderTargetDescriptor,
      .SetDescriptorHeaps self.m_d3d12_command_list self.m_d3d12_srv_heap,
      .ImGui_ImplDX12_RenderDrawData draw_data self.m_d3d12_command_list,
      .ResourceBarrier self.m_d3d12_command_list frame_ctx.RenderTarget .RENDER_TARGET .PRESENT,
      .CommandList_Close self.m_d3d12_command_list,
      .ExecuteCommandLists self.m_d3d12_command_queue self.m_d3d12_command_list]
    ++ viewports

/-- `D3DModule::d3d11_present_hook_core` (a `const` member function). -/
def d3d11_present_hook_core (host : Host) (self : D3DModule) : List Event :=
  let primitives :=
    if host.primitive_rendering_enabled then
      [Event.core_render, .prm_render_primitives_for_d3d11 self.m_d3d11_device_context]
    else []
  let draw_data := host.core_imgui_render
  let viewports :=
    if host.viewports_enabled then
      [Event.igUpdatePlatformWindows, .igRenderPlatformWindowsDefault none]
    else []
  primitives ++
    [.ImGui_ImplDX11_NewFrame, .ImGui_ImplWin32_NewFrame, .core_imgui_render,
      .ImGui_ImplDX11_RenderDrawData draw_data]
    ++ viewports

/-- `D3DModule::d3d12_present_hook`.  The result is the module afterwards, the events in program
order, and the returned `HRESULT`. -/
def d3d12_present_hook (host : Host) (self : D3DModule) (swap_chain : Handle)
    (sync_interval flags : Nat) : D3DModule × List Event × Int :=
  let present := Event.present_call swap_chain sync_interval flags
  let result := host.present_original swap_chain sync_interval flags
  if self.m_is_inside_present then
    (self, [present], result)
  else
  let self := { self with m_is_inside_present := true }
  let setup :=
    if !self.m_is_initialized then
      let init := d3d12_initialize_imgui host self swap_chain
      let self := init.1
      let tm :=
        if self.m_texture_manager.isNone then
          ({ self with
              m_texture_manager := some (TextureManager.d3d12 self.m_d3d12_device
                self.m_d3d12_command_queue self.m_d3d12_srv_heap) },
            [Event.texture_manager_new])
        else (self, [])
      let late :=
        if host.primitive_rendering_enabled then [Event.prm_late_init swap_chain] else []
      (tm.1, init.2 ++ tm.2 ++ late)
    else (self, [])
  let self := setup.1
  if self.m_d3d12_command_queue.isNone then
    (self, setup.2 ++ [present], result)
  else
  match host.facility_state with
  | some state =>
    if state > 5 then
      (self, setup.2 ++ [present], result)
    else
      ({ self with m_is_inside_present := false },
        setup.2 ++ d3d12_present_hook_core host self swap_chain ++ [present], result)
  | none =>
    ({ self with m_is_inside_present := false },
      setup.2 ++ d3d12_present_hook_core host self swap_chain ++ [present], result)

/-- `D3DModule::d3d11_present_hook`. -/
def d3d11_present_hook (host : Host) (self : D3DModule) (swap_chain : Handle)
    (sync_interval flags : Nat) : D3DModule × List Event × Int :=
  let present := Event.present_call swap_chain sync_interval flags
  let result := host.present_original swap_chain sync_interval flags
  if self.m_is_inside_present then
    (self, [present], result)
  else
  let self := { self with m_is_inside_present := true }
  let setup :=
    if !self.m_is_initialized then
      let init := d3d11_initialize_imgui host self swap_chain
      let self := init.1
      let tm :=
        if self.m_texture_manager.isNone then
          ({ self with
              m_texture_manager := some (TextureManager.d3d11 self.m_d3d11_device
                self.m_d3d11_device_context) },
            [Event.texture_manager_new])
        else (self, [])
      let late :=
        if host.primitive_rendering_enabled then [Event.prm_late_init swap_chain] else []
      (tm.1, init.2 ++ tm.2 ++ late)
    else (self, [])
  let self := setup.1
  ({ self with m_is_inside_present := false },
    setup.2 ++ d3d11_present_hook_core host self ++ [present], result)

/-- The context-capture probe installed by `initialize_for_d3d12_alt` (the lambda given to
`safetyhook::create_mid`); `swap_chain` is the value of `ctx.rcx`.  A probe neither calls the
original function nor returns a value. -/
def d3d12_present_hook_alt (host : Host) (self : D3DModule) (swap_chain : Handle) :
    D3DModule × List Event :=
  if self.m_is_inside_present then
    (self, [])
  else
  let self := { self with m_is_inside_present := true }
  let setup :=
    if !self.m_is_initialized then
      let init := d3d12_initialize_imgui host self swap_chain
      let self := init.1
      let tm :=
        if self.m_texture_manager.isNone then
          ({ self with
              m_texture_manager := some (TextureManager.d3d12 self.m_d3d12_device
                self.m_d3d12_command_queue self.m_d3d12_srv_heap) },
            [Event.texture_manager_new])
        else (self, [])
      let late :=
        if host.primitive_rendering_enabled then [Event.prm_late_init swap_chain] else []
      (tm.1, init.2 ++ tm.2 ++ late)
    else (self, [])
  let self := setup.1
  if self.m_d3d12_command_queue.isNone then
    ({ self with m_is_inside_present := false }, setup.2)
  else
  match host.facility_state with
  | some state =>
    if state > 5 then
      ({ self with m_is_inside_present := false }, setup.2)
    else
      ({ self with m_is_inside_present := false },
        setup.2 ++ d3d12_present_hook_core host self swap_chain)
  | none =>
    ({ self with m_is_inside_present := false },
      setup.2 ++ d3d12_present_hook_core host self swap_chain)

/-- The context-capture probe installed by `initialize_for_d3d11_alt`. -/
def d3d11_present_hook_alt (host : Host) (self : D3DModule) (swap_chain : Handle) :
    D3DModule × List Event :=
  if self.m_is_inside_present then
    (self, [])
  else
  let self := { self with m_is_inside_present := true }
  let setup :=
    if !self.m_is_initialized then
      let init := d3d11_initialize_imgui host self swap_chain
      let self := init.1
      let tm :=
        if self.m_texture_manager.isNone then
          ({ self with
              m_texture_manager := some (TextureManager.d3d11 self.m_d3d11_device
                self.m_d3d11_device_context) },
            [Event.texture_manager_new])
        else (self, [])
      let late :=
        if host.primitive_rendering_enabled then [Event.prm_late_init swap_chain] else []
      (tm.1, init.2 ++ tm.2 ++ late)
    else (self, [])
  let self := setup.1
  ({ self with m_is_inside_present := false }, setup.2 ++ d3d11_present_hook_core host self)

/-- `D3DModule::d3d12_execute_command_lists_hook` (returns `void`). -/
def d3d12_execute_command_lists_hook (host : Host) (self : D3DModule) (command_queue : Handle)
    (num_command_lists : Nat) (command_lists : Handle) : D3DModule × List Event :=
  let forward := Event.execute_command_lists_call command_queue num_command_lists command_lists
  if self.m_d3d12_command_queue.isNone
      && host.queue_type command_queue == D3D12_COMMAND_LIST_TYPE.DIRECT then
    let self := { self with m_d3d12_command_queue := some command_queue }
    match self.m_texture_manager with
    | some tm =>
      ({ self with m_texture_manager := some (tm.update_command_queue command_queue) },
        [.log .debug "Found D3D12 command queue",
          .texture_manager_update_command_queue command_queue, forward])
    | none => (self, [.log .debug "Found D3D12 command queue", forward])
  else
    (self, [forward])

/-- `D3DModule::d3d12_signal_hook`; the last component is the returned `UINT64`. -/
def d3d12_signal_hook (host : Host) (self : D3DModule) (command_queue : Handle)
    (fence : Option Handle) (value : Nat) : D3DModule × List Event × Nat :=
  let forward := Event.signal_call command_queue fence value
  let result := host.signal_original command_queue fence value
  if self.m_d3d12_command_queue = some command_queue then
    ({ self with m_d3d12_fence := fence, m_d3d12_fence_value := value }, [forward], result)
  else
    (self, [forward], result)

/-- `D3DModule::d3d_resize_buffers_hook`. -/
def d3d_resize_buffers_hook (host : Host) (self : D3DModule) (swap_chain : Handle)
    (buffer_count w h format flags : Nat) : D3DModule × List Event × Int :=
  let ev := [Event.log .debug "ResizeBuffers called, resetting..."]
  let deinit :=
    if self.m_is_initialized then
      let self := { self with m_is_initialized := false }
      if self.m_is_d3d12 then d3d12_deinitialize_imgui self
      else d3d11_deinitialize_imgui self
    else (self, [])
  (deinit.1,
    ev ++ deinit.2 ++
      [.prm_shutdown, .resize_buffers_call swap_chain buffer_count w h format flags],
    host.resize_buffers_original swap_chain buffer_count w h format flags)

/-- A pointer read from the host as a 64-bit value: zero is the null pointer. -/
def to_pointer (value : Nat) : Option Handle :=
  if value = 0 then none else some value

/-- `D3DModule::register_texture`; the second component is the returned `TextureHandle`. The
function writes no member field. -/
def register_texture (host : Host) (self : D3DModule) (texture : Option Handle) :
    List Event × Option Handle :=
  match self.m_texture_manager with
  | none => ([.log .error "Cannot register texture during Buffer Resize event"], none)
  | some _ =>
    if self.m_is_d3d12 && self.m_d3d12_command_queue.isNone then
      ([.log .error "Cannot register texture during Buffer Resize event (D3D12)"], none)
    else
      ([.texture_manager_register_texture texture],
        host.texture_manager_register_texture texture)

/-- `D3DModule::load_texture`; the values written through `out_width` and `out_height` are the
texture manager's and are not kept. -/
def load_texture (host : Host) (self : D3DModule) (path : String) :
    List Event × Option Handle :=
  match self.m_texture_manager with
  | none => ([.log .error "Cannot load texture during Buffer Resize event"], none)
  | some _ =>
    if self.m_is_d3d12 && self.m_d3d12_command_queue.isNone then
      ([.log .error "Cannot load texture during Buffer Resize event (D3D12)"], none)
    else
      ([.texture_manager_load_texture path], host.texture_manager_load_texture path)

/-- `D3DModule::unload_texture` (returns `void`). -/
def unload_texture (self : D3DModule) (handle : Option Handle) : List Event :=
  match self.m_texture_manager with
  | none => []
  | some _ => [.texture_manager_unload_texture handle]

/-- `D3DModule::my_window_proc`; the second component is the returned `LRESULT`. -/
def my_window_proc (host : Host) (self : D3DModule) (hwnd : Option Handle)
    (msg wparam lparam : Nat) : List Event × Int :=
  let handler :=
    if self.m_is_initialized then [Event.ImGui_ImplWin32_WndProcHandler hwnd msg wparam lparam]
    else []
  (handler ++ [.CallWindowProc self.m_game_window_proc hwnd msg wparam lparam],
    host.CallWindowProc self.m_game_window_proc hwnd msg wparam lparam)

/-- `D3DModule::initialize` (the bare name is reserved in Lean).  The hook library is not part of
the sources: an installation is recorded as an event and the handle keeps the address it was
installed at. -/
def initialize_module (host : Host) (self : D3DModule) : D3DModule × List Event :=
  if !host.imgui_rendering_enabled then
    (self, [.log .debug
      "Skipping D3D module initialization because imgui rendering is disabled"])
  else
  let renderer := "SharpPluginLoader.Core.Rendering.Renderer"
  let manager := "SharpPluginLoader.Core.SingletonManager"
  let self := { self with m_core_render := host.get_method renderer "Render" }
  let self := { self with m_core_imgui_render := host.get_method renderer "ImGuiRender" }
  let self := { self with m_core_initialize_imgui := host.get_method renderer "Initialize" }
  let self := { self with
    m_core_get_custom_fonts := host.get_method renderer "GetCustomFonts" }
  let self := { self with
    m_core_resolve_custom_fonts := host.get_method renderer "ResolveCustomFonts" }
  let self := { self with m_get_singleton := host.get_method manager "GetSingletonNative" }
  let play := host.get_repository_address "GUITitle:Play"
  let self := { self with m_title_menu_ready_hook := some play }
  (self,
    [.AddDllDirectory "nativePC/plugins/CSharp/Loader",
      .get_method renderer "Render", .get_method renderer "ImGuiRender",
      .get_method renderer "Initialize", .get_method renderer "GetCustomFonts",
      .get_method renderer "ResolveCustomFonts", .get_method manager "GetSingletonNative",
      .get_repository_address "GUITitle:Play", .create_inline play "title_menu_ready_hook",
      .add_internal_call "LoadTexture", .add_internal_call "UnloadTexture",
      .add_internal_call "RegisterTexture"])

/-- `D3DModule::initialize_for_d3d12_alt`.  Addresses are 64-bit `uintptr_t` values. -/
def initialize_for_d3d12_alt (host : Host) (self : D3DModule) : D3DModule × List Event :=
  let present_call := host.get_repository_address "D3DRender12:SwapChainPresentCall"
  let ev := [Event.get_repository_address "D3DRender12:SwapChainPresentCall"]
  if present_call = 0 then
    (self, ev ++ [.log .error "Failed to find SwapChainPresentCall"])
  else
  let self := { self with m_d3d12_module := host.GetModuleHandleA "d3d12.dll" }
  let ev := ev ++ [.GetModuleHandleA "d3d12.dll"]
  match host.GetModuleHandleA "d3d12.dll" with
  | none => (self, ev ++ [.log .error "Failed to find d3d12.dll"])
  | some _ =>
  let self := { self with m_d3d_present_hook_alt := some present_call }
  let ev := ev ++ [.create_mid present_call "d3d12_present_hook_alt"]
  let render_singleton := host.get_singleton "sMhRender"
  let renderer_address := (render_singleton + 120) % 18446744073709551616
  let renderer := host.read_pointer renderer_address
  let queue_address := (renderer + 32) % 18446744073709551616
  let command_queue := host.read_pointer queue_address
  let self := { self with m_d3d12_command_queue := to_pointer command_queue }
  let swap_chain_address := (renderer + 5232) % 18446744073709551616
  let swap_chain := host.read_pointer swap_chain_address
  let swap_chain_vft := host.read_pointer swap_chain
  let cmd_queue_vft := host.read_pointer command_queue
  let resize_buffers_slot := (swap_chain_vft + 104) % 18446744073709551616
  let resize_buffers := host.read_pointer resize_buffers_slot
  let signal_slot := (cmd_queue_vft + 112) % 18446744073709551616
  let signal := host.read_pointer signal_slot
  let ev := ev ++ [.get_singleton "sMhRender", .read_memory renderer_address,
    .read_memory queue_address, .read_memory swap_chain_address, .read_memory swap_chain,
    .read_memory command_queue, .read_memory resize_buffers_slot, .read_memory signal_slot,
    .log .debug "D3D12 Command Queue found at \x7b:p\x7d"]
  let self := { self with m_d3d_resize_buffers_hook := some resize_buffers }
  let self := { self with m_d3d_signal_hook := some signal }
  (self, ev ++ [.create_inline resize_buffers "d3d_resize_buffers_hook",
    .create_inline signal "d3d12_signal_hook"])

/-- `D3DModule::initialize_for_d3d11_alt`. -/
def initialize_for_d3d11_alt (host : Host) (self : D3DModule) : D3DModule × List Event :=
  let present_call := host.get_repository_address "D3DRender11:SwapChainPresentCall"
  let ev := [Event.get_repository_address "D3DRender11:SwapChainPresentCall"]
  if present_call = 0 then
    (self, ev ++ [.log .error "Failed to find SwapChainPresentCall"])
  else
    ({ self with m_d3d_present_hook_alt := some present_call },
      ev ++ [.create_mid present_call "d3d11_present_hook_alt"])

/-- `D3DModule::common_initialize`.  The source uses the result of the pattern scan without
testing it: the read `*(int*)callIsD3D12` and the call through `callIsD3D12 + 4 + offset` are
recorded with the addresses they are made at. -/
def common_initialize (host : Host) (self : D3DModule) : D3DModule × List Event :=
  let pattern := "05 7D 14 00 4C 8B 8D D8 08 00 00 84 C0 0F B6 85 F0 08 00 00"
  let callIsD3D12 := host.find_first
  let offset := host.read_int callIsD3D12
  let isD3D12 := (((callIsD3D12 : Int) + 4 + offset) % 18446744073709551616).toNat
  let self := { self with m_is_d3d12 := host.isD3D12 }
  let self := { self with m_title_menu_ready_hook := none }
  let ev := [Event.find_first pattern, .read_memory callIsD3D12, .call_isD3D12 isD3D12,
    .log .debug "Found cD3DRender::isD3D12 at \x7b:p\x7d",
    .title_menu_ready_hook_reset,
    .log .debug "Initializing D3D module for \x7b\x7d",
    .log .debug "Looking for game window: \x7b\x7d",
    .FindWindowA "MONSTER HUNTER: WORLD(\x7b\x7d)"]
  let self := { self with m_game_window := host.FindWindowA }
  match host.FindWindowA with
  | none => (self, ev ++ [.log .error "Failed to find game window (\x7b\x7d)"])
  | some _ =>
  let window_class := host.new_WNDCLASSEX
  let ev := ev ++ [.RegisterClassEx window_class]
  if !host.RegisterClassEx then
    (self, ev ++ [.log .error "Failed to register window class (\x7b\x7d)"])
  else
  let self := { self with m_temp_window_class := some window_class }
  let self := { self with m_temp_window := host.CreateWindow }
  let ev := ev ++ [.CreateWindow window_class]
  match host.CreateWindow with
  | none => (self, ev ++ [.log .error "Failed to create temporary window (\x7b\x7d)"])
  | some _ =>
  let backend :=
    if self.m_is_d3d12 then initialize_for_d3d12_alt host self
    else initialize_for_d3d11_alt host self
  (backend.1,
    ev ++ backend.2 ++ [.DestroyWindow backend.1.m_temp_window, .UnregisterClass window_class])

/-- `D3DModule::title_menu_ready_hook`.  The source runs `common_initialize` on a helper thread
while it calls the original function, and joins the thread before it returns; the events of the
helper thread are listed after the call of the original. -/
def title_menu_ready_hook (host : Host) (self : D3DModule) (gui : Handle) :
    D3DModule × List Event :=
  let init := common_initialize host self
  ({ init.1 with m_title_menu_ready_hook := none }, [.title_menu_ready_call gui] ++ init.2)

end D3DModule

/-! ## Sequences of hook activations -/

/-- One activation of one of the interceptions, with what the host answers during it and the
arguments the host passes. -/
inductive Activation where
  | d3d12_present (host : Host) (swap_chain : Handle) (sync_interval flags : Nat)
  | d3d11_present (host : Host) (swap_chain : Handle) (sync_interval flags : Nat)
  | d3d12_present_alt (host : Host) (swap_chain : Handle)
  | d3d11_present_alt (host : Host) (swap_chain : Handle)
  | resize_buffers (host : Host) (swap_chain : Handle) (buffer_count w h format flags : Nat)
  | execute_command_lists (host : Host) (command_queue : Handle) (num_command_lists : Nat)
      (command_lists : Handle)
  | signal (host : Host) (command_queue : Handle) (fence : Option Handle) (value : Nat)

/-- The module and the events after one activation. -/
def Activation.apply : Activation → D3DModule → D3DModule × List Event
  | .d3d12_present host swap_chain sync_interval flags, self =>
    ((D3DModule.d3d12_present_hook host self swap_chain sync_interval flags).1,
      (D3DModule.d3d12_present_hook host self swap_chain sync_interval flags).2.1)
  | .d3d11_present host swap_chain sync_interval flags, self =>
    ((D3DModule.d3d11_present_hook host self swap_chain sync_interval flags).1,
      (D3DModule.d3d11_present_hook host self swap_chain sync_interval flags).2.1)
  | .d3d12_present_alt host swap_chain, self =>
    D3DModule.d3d12_present_hook_alt host self swap_chain
  | .d3d11_present_alt host swap_chain, self =>
    D3DModule.d3d11_present_hook_alt host self swap_chain
  | .resize_buffers host swap_chain buffer_count w h format flags, self =>
    ((D3DModule.d3d_resize_buffers_hook host self swap_chain buffer_count w h format flags).1,
      (D3DModule.d3d_resize_buffers_hook host self swap_chain buffer_count w h format flags).2.1)
  | .execute_command_lists host command_queue num_command_lists command_lists, self =>
    D3DModule.d3d12_execute_command_lists_hook host self command_queue num_command_lists
      command_lists
  | .signal host command_queue fence value, self =>
    ((D3DModule.d3d12_signal_hook host self command_queue fence value).1,
      (D3DModule.d3d12_signal_hook host self command_queue fence value).2.1)

/-- The module after a finite sequence of activations, with all their events in order. -/
def D3DModule.run (self : D3DModule) : List Activation → D3DModule × List Event
  | [] => (self, [])
  | a :: rest => ((D3DModule.run (a.apply self).1 rest).1,
      (a.apply self).2 ++ (D3DModule.run (a.apply self).1 rest).2)

/-- The target queue of the earliest command-submission activation whose queue is of direct
type, if there is one. -/
def first_direct_queue : List Activation → Option Handle
  | [] => none
  | .execute_command_lists host command_queue _ _ :: rest =>
    if host.queue_type command_queue = D3D12_COMMAND_LIST_TYPE.DIRECT then some command_queue
    else first_direct_queue rest
  | _ :: rest => first_direct_queue rest

/-! ## Example hosts and modules -/

/-- A host on which every step of the initialization succeeds: the swap chain reports `n` back
buffers, back buffer `i` is the resource `100 + i`, the render-target heap starts at `4096` and
its descriptors are `32` bytes apart. -/
def sample_host (n : Nat) : Host :=
  { GetDevice := some 10
    GetDesc := some { Width := 1920, Height := 1080, BufferCount := n, OutputWindow := some 5 }
    GetBuffer := fun i => some (100 + i)
    CreateDescriptorHeap_srv := some 11
    CreateCommandAllocator := some 12
    CreateCommandList := some 13
    Close := true
    CreateDescriptorHeap_rtv := some 14
    GetDescriptorHandleIncrementSize := 32
    GetCPUDescriptorHandleForHeapStart := 4096
    GetImmediateContext := some 15
    core_initialize_imgui := some 16
    ImGui_ImplWin32_Init := true
    ImGui_ImplDX12_Init := true
    ImGui_ImplDX12_CreateDeviceObjects := true
    ImGui_ImplDX11_Init := true
    core_imgui_render := some 17
    previous_wndproc := some 18 }

/-- A host on which the very first step of the initialization, `GetDevice`, fails. -/
def failing_host : Host := {}

/-- A D3D12 module before its first present call, with the direct command queue `7` already
captured. -/
def sample_module : D3DModule :=
  { m_is_d3d12 := true, m_d3d12_command_queue := some 7 }

/-- A D3D12 module whose earlier initialization attempt failed half-way on a swap chain with
three back buffers: the frame contexts of that attempt are still in place. -/
def stale_module : D3DModule :=
  { m_is_d3d12 := true
    m_d3d12_command_queue := some 7
    m_d3d12_buffer_count := 3
    m_d3d12_frame_contexts :=
      [{ CommandAllocator := some 40, RenderTarget := some 41, RenderTargetDescriptor := 8192 },
        { CommandAllocator := some 40 }, { CommandAllocator := some 40 }] }

/-- A D3D12 module in the Ready state on a swap chain with two back buffers. -/
def ready_module : D3DModule :=
  { m_is_d3d12 := true
    m_is_initialized := true
    m_fonts_loaded := true
    m_game_window := some 5
    m_game_window_proc := some 18
    m_d3d12_device := some 10
    m_d3d12_command_queue := some 7
    m_d3d12_srv_heap := some 11
    m_d3d12_back_buffers := some 14
    m_d3d12_command_list := some 13
    m_d3d12_buffer_count := 2
    m_d3d12_fence := some 30
    m_d3d12_fence_value := 9
    m_d3d12_frame_contexts :=
      [{ CommandAllocator := some 12, RenderTarget := some 100, RenderTargetDescriptor := 4096 },
        { CommandAllocator := some 12, RenderTarget := some 101,
          RenderTargetDescriptor := 4128 }]
    m_texture_manager := some (TextureManager.d3d12 (some 10) (some 7) (some 11)) }

/-- A host for command submissions on which queue `8` is a compute queue and every other queue
is of direct type. -/
def queue_host : Host :=
  { queue_type := fun q => if q = 8 then .COMPUTE else .DIRECT }

/-- A sequence of activations: a present call, a submission on the compute queue `8`, one on the
direct queue `7`, a resize, a submission on another direct queue `9`, a signal on queue `9`, and
a present call through the probe. -/
def sample_activations : List Activation :=
  [.d3d12_present (sample_host 2) 1 0 0,
    .execute_command_lists queue_host 8 1 50,
    .execute_command_lists queue_host 7 1 51,
    .resize_buffers {} 1 3 1920 1080 28 0,
    .execute_command_lists queue_host 9 2 52,
    .signal {} 9 (some 30) 4,
    .d3d12_present_alt (sample_host 3) 1]

/-- One use of the module after start-up: a hook activation, a texture operation requested by
the managed side, or a message delivered to the substituted window procedure. -/
inductive Operation where
  | hook (a : Activation)
  | register_texture (host : Host) (texture : Option Handle)
  | load_texture (host : Host) (path : String)
  | unload_texture (handle : Option Handle)
  | my_window_proc (host : Host) (hwnd : Option Handle) (msg wparam lparam : Nat)

/-- The module and the events after one operation. -/
def Operation.apply : Operation → D3DModule → D3DModule × List Event
  | .hook a, self => a.apply self
  | .register_texture host texture, self =>
    (self, (D3DModule.register_texture host self texture).1)
  | .load_texture host path, self => (self, (D3DModule.load_texture host self path).1)
  | .unload_texture handle, self => (self, D3DModule.unload_texture self handle)
  | .my_window_proc host hwnd msg wparam lparam, self =>
    (self, (D3DModule.my_window_proc host self hwnd msg wparam lparam).1)

/-- The module after a finite sequence of operations, with all their events in order. -/
def D3DModule.run_operations (self : D3DModule) : List Operation → D3DModule × List Event
  | [] => (self, [])
  | o :: rest => ((D3DModule.run_operations (o.apply self).1 rest).1,
      (o.apply self).2 ++ (D3DModule.run_operations (o.apply self).1 rest).2)

/-- Recognises an invocation of the backend-check routine `cD3DRender::isD3D12`. -/
def Event.is_call_isD3D12 : Event → Bool
  | .call_isD3D12 _ => true
  | _ => false

/-- A host at start-up on which everything is found except the backend-check signature: the
pattern scan yields `0`. -/
def startup_host : Host :=
  { find_first := 0
    isD3D12 := true
    FindWindowA := some 5
    RegisterClassEx := true
    CreateWindow := some 6
    get_repository_address := fun _ => 4242
    GetModuleHandleA := fun _ => some 77
    get_singleton := fun _ => 1000
    read_pointer := fun a => 2 * a + 8 }

/-- A host for texture operations whose texture manager hands out the handle `61`. -/
def texture_host : Host :=
  { texture_manager_register_texture := fun _ => some 61
    texture_manager_load_texture := fun _ => some 61 }

/-- Recognises a call through `m_d3d_execute_command_lists_hook` to the original
`ExecuteCommandLists`. -/
def Event.is_execute_command_lists_call : Event → Bool
  | .execute_command_lists_call _ _ _ => true
  | _ => false

namespace D3DModule

/-! ## Events of the building blocks -/

theorem length_resize (v : List FrameContext) (count : Nat) :
    (resize v count).length = count := by
  simp [resize]
  omega

theorem length_assign_command_allocator (a : Handle) (k i : Nat) (v : List FrameContext) :
    (assign_command_allocator a k i v).length = v.length := by
  induction k generalizing i v with
  | zero => simp [assign_command_allocator]
  | succ k ih => simp [assign_command_allocator, ih]

theorem imgui_load_fonts_fields (host : Host) (self : D3DModule) :
    (imgui_load_fonts host self).1 = { self with m_fonts_loaded := true } := by
  unfold imgui_load_fonts
  split
  · next h => cases self; simp_all
  · rfl

/-- What a completed run of the render-target-view loop leaves in the vector: the length is
kept, the entries below the start index are kept, and entry `j` of the range holds buffer `j`
and the descriptor reached after `j - i` increments. -/
theorem create_render_target_views_spec (host : Host) (size : Nat) :
    ∀ (k i handle : Nat) (v : List FrameContext),
      i + k ≤ v.length → handle < 18446744073709551616 →
      (create_render_target_views host size k i handle v).1 = true →
      (create_render_target_views host size k i handle v).2.1.length = v.length
        ∧ (∀ j, j < i →
            (create_render_target_views host size k i handle v).2.1[j]? = v[j]?)
        ∧ (∀ j, i ≤ j → j < i + k →
            ∃ fc back_buffer,
              (create_render_target_views host size k i handle v).2.1[j]? = some fc
                ∧ host.GetBuffer j = some back_buffer
                ∧ fc.RenderTarget = some back_buffer
                ∧ fc.RenderTargetDescriptor
                  = (handle + (j - i) * size) % 18446744073709551616) := by
  intro k
  induction k with
  | zero =>
    intro i handle v _ _ _
    refine ⟨by simp [create_render_target_views], ?_, ?_⟩
    · intro j _
      simp [create_render_target_views]
    · intro j h1 h2
      omega
  | succ k ih =>
    intro i handle v hlen hh hok
    unfold create_render_target_views at hok ⊢
    cases hb : host.GetBuffer i with
    | none => simp [hb] at hok
    | some back_buffer =>
      simp only [hb] at hok ⊢
      have hlen1 : i + 1 + k ≤ (v.set i { v.getD i ({} : FrameContext) with
          RenderTargetDescriptor := handle, RenderTarget := some back_buffer }).length := by
        simp
        omega
      obtain ⟨h1, h2, h3⟩ := ih (i + 1) ((handle + size) % 18446744073709551616) _ hlen1
        (Nat.mod_lt _ (by norm_num)) hok
      refine ⟨by simpa using h1, ?_, ?_⟩
      · intro j hj
        rw [h2 j (by omega)]
        rw [List.getElem?_set_ne (by omega)]
      · intro j hj1 hj2
        by_cases hji : j = i
        · subst hji
          refine ⟨{ v.getD j ({} : FrameContext) with
            RenderTargetDescriptor := handle, RenderTarget := some back_buffer },
            back_buffer, ?_, hb, rfl, ?_⟩
          · rw [h2 j (by omega)]
            rw [List.getElem?_set_self (by omega)]
          · simp
            omega
        · obtain ⟨fc, bb, e1, e2, e3, e4⟩ := h3 j (by omega) (by omega)
          refine ⟨fc, bb, e1, e2, e3, ?_⟩
          rw [e4]
          have hsplit : (j - i) * size = (j - (i + 1)) * size + size := by
            have : j - i = (j - (i + 1)) + 1 := by omega
            rw [this, Nat.succ_mul]
          rw [hsplit]
          generalize (j - (i + 1)) * size = t
          omega

/-- A run of `d3d12_initialize_imgui` that turns `m_is_initialized` from false to true has
rebuilt the frame contexts for the reported buffer count. -/
theorem d3d12_initialize_imgui_success (host : Host) (self : D3DModule)
    (swap_chain : Handle) (desc : DXGI_SWAP_CHAIN_DESC)
    (hdesc : host.GetDesc = some desc)
    (h0 : self.m_is_initialized = false)
    (h1 : (d3d12_initialize_imgui host self swap_chain).1.m_is_initialized = true) :
    (d3d12_initialize_imgui host self swap_chain).1.m_d3d12_frame_contexts.length
        = desc.BufferCount
      ∧ (d3d12_initialize_imgui host self swap_chain).1.m_d3d12_buffer_count
        = desc.BufferCount
      ∧ ∀ i, i < desc.BufferCount →
          ∃ fc back_buffer,
            (d3d12_initialize_imgui host self swap_chain).1.m_d3d12_frame_contexts[i]?
                = some fc
              ∧ host.GetBuffer i = some back_buffer
              ∧ fc.RenderTarget = some back_buffer
              ∧ fc.RenderTargetDescriptor
                = (host.GetCPUDescriptorHandleForHeapStart
                    + i * (host.GetDescriptorHandleIncrementSize % 4294967296))
                  % 18446744073709551616 := by
  rcases hG : host.GetDevice with _ | dev
  · simp [d3d12_initialize_imgui, hG, h0] at h1
  rcases hS : host.CreateDescriptorHeap_srv with _ | srv
  · simp [d3d12_initialize_imgui, hG, hdesc, hS, imgui_load_fonts_fields, h0] at h1
  rcases hA : host.CreateCommandAllocator with _ | alloc
  · simp [d3d12_initialize_imgui, hG, hdesc, hS, hA, imgui_load_fonts_fields, h0] at h1
  rcases hL : host.CreateCommandList with _ | list
  · simp [d3d12_initialize_imgui, hG, hdesc, hS, hA, hL, imgui_load_fonts_fields, h0] at h1
  rcases hC : host.Close with _ | _
  · simp [d3d12_initialize_imgui, hG, hdesc, hS, hA, hL, hC, imgui_load_fonts_fields, h0] at h1
  rcases hR : host.CreateDescriptorHeap_rtv with _ | rtv
  · simp [d3d12_initialize_imgui, hG, hdesc, hS, hA, hL, hC, hR, imgui_load_fonts_fields, h0]
      at h1
  rcases hV : (create_render_target_views host
      (host.GetDescriptorHandleIncrementSize % 4294967296) desc.BufferCount 0
      (host.GetCPUDescriptorHandleForHeapStart % 18446744073709551616)
      (assign_command_allocator alloc desc.BufferCount 0
        (resize self.m_d3d12_frame_contexts desc.BufferCount))).1 with _ | _
  · simp [d3d12_initialize_imgui, hG, hdesc, hS, hA, hL, hC, hR, hV, imgui_load_fonts_fields,
      h0] at h1
  rcases hW : host.ImGui_ImplWin32_Init with _ | _
  · simp [d3d12_initialize_imgui, hG, hdesc, hS, hA, hL, hC, hR, hV, hW,
      imgui_load_fonts_fields, h0] at h1
  rcases hD : host.ImGui_ImplDX12_Init with _ | _
  · simp [d3d12_initialize_imgui, hG, hdesc, hS, hA, hL, hC, hR, hV, hW, hD,
      imgui_load_fonts_fields, h0] at h1
  rcases hO : host.ImGui_ImplDX12_CreateDeviceObjects with _ | _
  · simp [d3d12_initialize_imgui, hG, hdesc, hS, hA, hL, hC, hR, hV, hW, hD, hO,
      imgui_load_fonts_fields, h0] at h1
  have hlen : 0 + desc.BufferCount ≤ (assign_command_allocator alloc desc.BufferCount 0
      (resize self.m_d3d12_frame_contexts desc.BufferCount)).length := by
    simp [length_assign_command_allocator, length_resize]
  obtain ⟨e1, _, e3⟩ := create_render_target_views_spec host _ desc.BufferCount 0 _ _ hlen
    (Nat.mod_lt _ (by norm_num)) hV
  have hstate : (d3d12_initialize_imgui host self swap_chain).1.m_d3d12_frame_contexts
      = (create_render_target_views host
          (host.GetDescriptorHandleIncrementSize % 4294967296) desc.BufferCount 0
          (host.GetCPUDescriptorHandleForHeapStart % 18446744073709551616)
          (assign_command_allocator alloc desc.BufferCount 0
            (resize self.m_d3d12_frame_contexts desc.BufferCount))).2.1 := by
    cases hM : host.wndproc_is_my_window_proc <;>
      simp [d3d12_initialize_imgui, hG, hdesc, hS, hA, hL, hC, hR, hV, hW, hD, hO, hM,
        imgui_load_fonts_fields]
  have hcount : (d3d12_initialize_imgui host self swap_chain).1.m_d3d12_buffer_count
      = desc.BufferCount := by
    cases hM : host.wndproc_is_my_window_proc <;>
      simp [d3d12_initialize_imgui, hG, hdesc, hS, hA, hL, hC, hR, hV, hW, hD, hO, hM,
        imgui_load_fonts_fields]
  refine ⟨?_, hcount, ?_⟩
  · rw [hstate, e1, length_assign_command_allocator, length_resize]
  · intro i hi
    obtain ⟨fc, bb, f1, f2, f3, f4⟩ := e3 i (Nat.zero_le _) (by omega)
    refine ⟨fc, bb, by rw [hstate]; exact f1, f2, f3, ?_⟩
    rw [f4]
    simp

/-- C5: whenever `d3d12_initialize_imgui` completes successfully (it is entered with
`m_is_initialized` false and leaves it true) on a swap chain whose description reports
`BufferCount = N`, then whatever `m_d3d12_frame_contexts` held before, it has exactly `N` entries
afterwards, `m_d3d12_buffer_count = N`, and for every `i < N` entry `i` holds back buffer `i` of
the swap chain and the render-target descriptor `heapStart + i * incrementSize` computed in
64-bit unsigned arithmetic (the increment being a 32-bit `UINT`). -/
theorem d3d12_initialize_imgui_frame_contexts (host : Host) (self : D3DModule)
    (swap_chain : Handle) (desc : DXGI_SWAP_CHAIN_DESC)
    (hdesc : host.GetDesc = some desc)
    (h0 : self.m_is_initialized = false)
    (h1 : (d3d12_initialize_imgui host self swap_chain).1.m_is_initialized = true) :
    (d3d12_initialize_imgui host self swap_chain).1.m_d3d12_frame_contexts.length
        = desc.BufferCount
      ∧ (d3d12_initialize_imgui host self swap_chain).1.m_d3d12_buffer_count
        = desc.BufferCount
      ∧ ∀ i, i < desc.BufferCount →
          ∃ fc back_buffer,
            (d3d12_initialize_imgui host self swap_chain).1.m_d3d12_frame_contexts[i]?
                = some fc
              ∧ host.GetBuffer i = some back_buffer
              ∧ fc.RenderTarget = some back_buffer
              ∧ fc.RenderTargetDescriptor
                = (host.GetCPUDescriptorHandleForHeapStart
                    + i * (host.GetDescriptorHandleIncrementSize % 4294967296))
                  % 18446744073709551616 :=
  d3d12_initialize_imgui_success host self swap_chain desc hdesc h0 h1

/-- The statement of C5 on a swap chain with two back buffers, starting from the three frame
contexts left by an earlier failed attempt. -/
theorem d3d12_initialize_imgui_frame_contexts_witness :
    (sample_host 2).GetDesc
        = some { Width := 1920, Height := 1080, BufferCount := 2, OutputWindow := some 5 }
      ∧ stale_module.m_is_initialized = false
      ∧ (d3d12_initialize_imgui (sample_host 2) stale_module 1).1.m_is_initialized = true
      ∧ (d3d12_initialize_imgui (sample_host 2) stale_module 1).1.m_d3d12_frame_contexts.length
        = 2
      ∧ (d3d12_initialize_imgui (sample_host 2) stale_module 1).1.m_d3d12_buffer_count = 2
      ∧ ∀ i, i < 2 →
          ∃ fc back_buffer,
            (d3d12_initialize_imgui (sample_host 2) stale_module 1).1.m_d3d12_frame_contexts[i]?
                = some fc
              ∧ (sample_host 2).GetBuffer i = some back_buffer
              ∧ fc.RenderTarget = some back_buffer
              ∧ fc.RenderTargetDescriptor
                = ((sample_host 2).GetCPUDescriptorHandleForHeapStart
                    + i * ((sample_host 2).GetDescriptorHandleIncrementSize % 4294967296))
                  % 18446744073709551616 :=
  ⟨rfl, rfl, rfl,
    d3d12_initialize_imgui_frame_contexts (sample_host 2) stale_module 1
      { Width := 1920, Height := 1080, BufferCount := 2, OutputWindow := some 5 } rfl rfl rfl⟩

/-! ## Fields the initialization and the present interceptions leave alone -/

theorem d3d12_initialize_imgui_keeps (host : Host) (self : D3DModule) (swap_chain : Handle) :
    (d3d12_initialize_imgui host self swap_chain).1.m_is_d3d12 = self.m_is_d3d12
      ∧ (d3d12_initialize_imgui host self swap_chain).1.m_d3d12_command_queue
        = self.m_d3d12_command_queue
      ∧ (d3d12_initialize_imgui host self swap_chain).1.m_is_inside_present
        = self.m_is_inside_present
      ∧ (d3d12_initialize_imgui host self swap_chain).1.m_d3d12_fence = self.m_d3d12_fence
      ∧ (d3d12_initialize_imgui host self swap_chain).1.m_d3d12_fence_value
        = self.m_d3d12_fence_value
      ∧ (d3d12_initialize_imgui host self swap_chain).1.m_texture_manager
        = self.m_texture_manager := by
  unfold d3d12_initialize_imgui
  simp only [imgui_load_fonts_fields]
  repeat' split
  all_goals simp

theorem d3d11_initialize_imgui_keeps (host : Host) (self : D3DModule) (swap_chain : Handle) :
    (d3d11_initialize_imgui host self swap_chain).1.m_is_d3d12 = self.m_is_d3d12
      ∧ (d3d11_initialize_imgui host self swap_chain).1.m_d3d12_command_queue
        = self.m_d3d12_command_queue
      ∧ (d3d11_initialize_imgui host self swap_chain).1.m_is_inside_present
        = self.m_is_inside_present
      ∧ (d3d11_initialize_imgui host self swap_chain).1.m_d3d12_fence = self.m_d3d12_fence
      ∧ (d3d11_initialize_imgui host self swap_chain).1.m_d3d12_fence_value
        = self.m_d3d12_fence_value
      ∧ (d3d11_initialize_imgui host self swap_chain).1.m_texture_manager
        = self.m_texture_manager := by
  unfold d3d11_initialize_imgui
  simp only [imgui_load_fonts_fields]
  repeat' split
  all_goals simp

/-- The module after a `d3d12_present_hook` activation that had to initialize: the module after
the initialization attempt, up to the guard and the texture manager. -/
theorem d3d12_present_hook_state (host : Host) (self : D3DModule) (swap_chain : Handle)
    (sync_interval flags : Nat) (hg : self.m_is_inside_present = false)
    (hi : self.m_is_initialized = false) :
    ∃ guard tm,
      (d3d12_present_hook host self swap_chain sync_interval flags).1
        = { (d3d12_initialize_imgui host { self with m_is_inside_present := true }
              swap_chain).1 with
            m_is_inside_present := guard, m_texture_manager := tm } := by
  unfold d3d12_present_hook
  simp only [hg, hi]
  repeat' split
  all_goals first
    | contradiction
    | exact ⟨_, _, rfl⟩

/-- The same for the context-capture probe. -/
theorem d3d12_present_hook_alt_state (host : Host) (self : D3DModule) (swap_chain : Handle)
    (hg : self.m_is_inside_present = false) (hi : self.m_is_initialized = false) :
    ∃ guard tm,
      (d3d12_present_hook_alt host self swap_chain).1
        = { (d3d12_initialize_imgui host { self with m_is_inside_present := true }
              swap_chain).1 with
            m_is_inside_present := guard, m_texture_manager := tm } := by
  unfold d3d12_present_hook_alt
  simp only [hg, hi]
  repeat' split
  all_goals first
    | contradiction
    | exact ⟨_, _, rfl⟩

/-- On the D3D12 backend a resize while initialized empties the frame contexts and clears
`m_is_initialized`. -/
theorem d3d_resize_buffers_hook_ready_d3d12 (host : Host) (self : D3DModule)
    (swap_chain : Handle) (buffer_count w h format flags : Nat)
    (hi : self.m_is_initialized = true) (hb : self.m_is_d3d12 = true) :
    (d3d_resize_buffers_hook host self swap_chain buffer_count w h format
        flags).1.m_d3d12_frame_contexts = []
      ∧ (d3d_resize_buffers_hook host self swap_chain buffer_count w h format
        flags).1.m_is_initialized = false := by
  simp [d3d_resize_buffers_hook, hi, hb, d3d12_deinitialize_imgui]

/-- A D3D12 present interception (hook or probe) that turns `m_is_initialized` from false to true
leaves the frame contexts that `d3d12_initialize_imgui` built for the reported buffer count, and
keeps the backend kind. -/
theorem d3d12_present_initializes (host : Host) (swap_chain : Handle)
    (sync_interval flags : Nat) (p : Activation)
    (hp : p = .d3d12_present host swap_chain sync_interval flags
      ∨ p = .d3d12_present_alt host swap_chain)
    (self : D3DModule) (desc : DXGI_SWAP_CHAIN_DESC) (hdesc : host.GetDesc = some desc)
    (h0 : self.m_is_initialized = false)
    (h1 : (p.apply self).1.m_is_initialized = true) :
    (p.apply self).1.m_d3d12_frame_contexts.length = desc.BufferCount
      ∧ (p.apply self).1.m_d3d12_buffer_count = desc.BufferCount
      ∧ (∀ i, i < desc.BufferCount →
          ∃ fc back_buffer,
            (p.apply self).1.m_d3d12_frame_contexts[i]? = some fc
              ∧ host.GetBuffer i = some back_buffer
              ∧ fc.RenderTarget = some back_buffer
              ∧ fc.RenderTargetDescriptor
                = (host.GetCPUDescriptorHandleForHeapStart
                    + i * (host.GetDescriptorHandleIncrementSize % 4294967296))
                  % 18446744073709551616)
      ∧ (p.apply self).1.m_is_d3d12 = self.m_is_d3d12 := by
  have hg : self.m_is_inside_present = false := by
    cases hgv : self.m_is_inside_present with
    | false => rfl
    | true =>
      rcases hp with rfl | rfl
      · simp [Activation.apply, d3d12_present_hook, hgv, h0] at h1
      · simp [Activation.apply, d3d12_present_hook_alt, hgv, h0] at h1
  have key : ∃ guard tm, (p.apply self).1
      = { (d3d12_initialize_imgui host { self with m_is_inside_present := true }
            swap_chain).1 with
          m_is_inside_present := guard, m_texture_manager := tm } := by
    rcases hp with rfl | rfl
    · exact d3d12_present_hook_state host self swap_chain sync_interval flags hg h0
    · exact d3d12_present_hook_alt_state host self swap_chain hg h0
  obtain ⟨guard, tm, e⟩ := key
  rw [e] at h1 ⊢
  have h0' : ({ self with m_is_inside_present := true } : D3DModule).m_is_initialized
      = false := h0
  obtain ⟨a1, a2, a3⟩ := d3d12_initialize_imgui_success host
    { self with m_is_inside_present := true } swap_chain desc hdesc h0' h1
  exact ⟨a1, a2, a3,
    (d3d12_initialize_imgui_keeps host { self with m_is_inside_present := true } swap_chain).1⟩

/-- C6: on the D3D12 backend, starting Uninitialized, a present activation (hook or probe) on a
swap chain reporting `N` buffers that initializes successfully leaves `N` frame contexts; a
following `d3d_resize_buffers_hook` activation leaves no frame context and `m_is_initialized`
false; and the next present activation, on the swap chain now reporting `N'` buffers, that
initializes successfully leaves exactly `N'` frame contexts, entry `i` holding the descriptor
`heapStart + i * incrementSize` (64-bit unsigned arithmetic). -/
theorem frame_contexts_rebuilt_after_resize (self : D3DModule) (host1 host2 host3 : Host)
    (swap_chain : Handle) (sync_interval1 flags1 sync_interval3 flags3 : Nat)
    (buffer_count w h format flags : Nat) (p1 p3 : Activation)
    (desc1 desc3 : DXGI_SWAP_CHAIN_DESC)
    (hp1 : p1 = .d3d12_present host1 swap_chain sync_interval1 flags1
      ∨ p1 = .d3d12_present_alt host1 swap_chain)
    (hp3 : p3 = .d3d12_present host3 swap_chain sync_interval3 flags3
      ∨ p3 = .d3d12_present_alt host3 swap_chain)
    (hdesc1 : host1.GetDesc = some desc1) (hdesc3 : host3.GetDesc = some desc3)
    (hbackend : self.m_is_d3d12 = true)
    (h0 : self.m_is_initialized = false)
    (h1 : (p1.apply self).1.m_is_initialized = true)
    (h3 : (p3.apply ((Activation.resize_buffers host2 swap_chain buffer_count w h format
      flags).apply (p1.apply self).1).1).1.m_is_initialized = true) :
    (p1.apply self).1.m_d3d12_frame_contexts.length = desc1.BufferCount
      ∧ ((Activation.resize_buffers host2 swap_chain buffer_count w h format flags).apply
          (p1.apply self).1).1.m_d3d12_frame_contexts.length = 0
      ∧ ((Activation.resize_buffers host2 swap_chain buffer_count w h format flags).apply
          (p1.apply self).1).1.m_is_initialized = false
      ∧ (p3.apply ((Activation.resize_buffers host2 swap_chain buffer_count w h format
          flags).apply (p1.apply self).1).1).1.m_d3d12_frame_contexts.length
        = desc3.BufferCount
      ∧ ∀ i, i < desc3.BufferCount →
          ∃ fc,
            (p3.apply ((Activation.resize_buffers host2 swap_chain buffer_count w h format
                flags).apply (p1.apply self).1).1).1.m_d3d12_frame_contexts[i]? = some fc
              ∧ fc.RenderTargetDescriptor
                = (host3.GetCPUDescriptorHandleForHeapStart
                    + i * (host3.GetDescriptorHandleIncrementSize % 4294967296))
                  % 18446744073709551616 := by
  obtain ⟨a1, _, _, a4⟩ := d3d12_present_initializes host1 swap_chain sync_interval1 flags1 p1
    hp1 self desc1 hdesc1 h0 h1
  have hb1 : (p1.apply self).1.m_is_d3d12 = true := by rw [a4, hbackend]
  obtain ⟨r1, r2⟩ := d3d_resize_buffers_hook_ready_d3d12 host2 (p1.apply self).1 swap_chain
    buffer_count w h format flags h1 hb1
  have r2 : ((Activation.resize_buffers host2 swap_chain buffer_count w h format flags).apply
      (p1.apply self).1).1.m_is_initialized = false := r2
  obtain ⟨b1, _, b3, _⟩ := d3d12_present_initializes host3 swap_chain sync_interval3 flags3 p3
    hp3 _ desc3 hdesc3 r2 h3
  refine ⟨a1, congrArg List.length r1, r2, b1, ?_⟩
  intro i hi
  obtain ⟨fc, _, c1, _, _, c4⟩ := b3 i hi
  exact ⟨fc, c1, c4⟩

/-- The statement of C6 for the scenario of the specification: two buffers, a resize, then three
buffers, whose descriptors are then `4096`, `4096 + 32` and `4096 + 64`. -/
theorem frame_contexts_rebuilt_after_resize_witness :
    (sample_host 2).GetDesc
        = some { Width := 1920, Height := 1080, BufferCount := 2, OutputWindow := some 5 }
      ∧ (sample_host 3).GetDesc
        = some { Width := 1920, Height := 1080, BufferCount := 3, OutputWindow := some 5 }
      ∧ sample_module.m_is_d3d12 = true
      ∧ sample_module.m_is_initialized = false
      ∧ ((Activation.d3d12_present (sample_host 2) 1 0 0).apply
          sample_module).1.m_is_initialized = true
      ∧ ((Activation.d3d12_present (sample_host 3) 1 0 0).apply
          ((Activation.resize_buffers {} 1 3 1920 1080 28 0).apply
            ((Activation.d3d12_present (sample_host 2) 1 0 0).apply
              sample_module).1).1).1.m_is_initialized = true
      ∧ (((Activation.d3d12_present (sample_host 3) 1 0 0).apply
          ((Activation.resize_buffers {} 1 3 1920 1080 28 0).apply
            ((Activation.d3d12_present (sample_host 2) 1 0 0).apply
              sample_module).1).1).1.m_d3d12_frame_contexts.map
            FrameContext.RenderTargetDescriptor = [4096, 4128, 4160])
      ∧ (((Activation.d3d12_present (sample_host 2) 1 0 0).apply
            sample_module).1.m_d3d12_frame_contexts.length = 2
        ∧ ((Activation.resize_buffers {} 1 3 1920 1080 28 0).apply
            ((Activation.d3d12_present (sample_host 2) 1 0 0).apply
              sample_module).1).1.m_d3d12_frame_contexts.length = 0
        ∧ ((Activation.resize_buffers {} 1 3 1920 1080 28 0).apply
            ((Activation.d3d12_present (sample_host 2) 1 0 0).apply
              sample_module).1).1.m_is_initialized = false
        ∧ ((Activation.d3d12_present (sample_host 3) 1 0 0).apply
            ((Activation.resize_buffers {} 1 3 1920 1080 28 0).apply
              ((Activation.d3d12_present (sample_host 2) 1 0 0).apply
                sample_module).1).1).1.m_d3d12_frame_contexts.length = 3
        ∧ ∀ i, i < 3 →
            ∃ fc,
              ((Activation.d3d12_present (sample_host 3) 1 0 0).apply
                  ((Activation.resize_buffers {} 1 3 1920 1080 28 0).apply
                    ((Activation.d3d12_present (sample_host 2) 1 0 0).apply
                      sample_module).1).1).1.m_d3d12_frame_contexts[i]? = some fc
                ∧ fc.RenderTargetDescriptor
                  = ((sample_host 3).GetCPUDescriptorHandleForHeapStart
                      + i * ((sample_host 3).GetDescriptorHandleIncrementSize % 4294967296))
                    % 18446744073709551616) :=
  ⟨rfl, rfl, rfl, rfl, rfl, rfl, rfl,
    frame_contexts_rebuilt_after_resize sample_module (sample_host 2) {} (sample_host 3)
      1 0 0 0 0 3 1920 1080 28 0
      (Activation.d3d12_present (sample_host 2) 1 0 0)
      (Activation.d3d12_present (sample_host 3) 1 0 0)
      { Width := 1920, Height := 1080, BufferCount := 2, OutputWindow := some 5 }
      { Width := 1920, Height := 1080, BufferCount := 3, OutputWindow := some 5 }
      (Or.inl rfl) (Or.inl rfl) rfl rfl rfl rfl rfl rfl⟩

/-! ## The resize hook -/

/-- C7: when the module is Ready (`m_is_initialized` true), one activation of
`d3d_resize_buffers_hook` clears `m_is_initialized`, runs the deinitialize step of the backend
(on D3D12 the frame contexts become empty, the buffer count 0, and both descriptor heaps, the
command list and the recorded fence are dropped; on D3D11 the device and its context are
dropped), then notifies `PrimitiveRenderingModule::shutdown`, and only then calls the original
resize function, exactly once and with the six arguments it received, whose result it
returns. -/
theorem d3d_resize_buffers_hook_ready (host : Host) (self : D3DModule) (swap_chain : Handle)
    (buffer_count w h format flags : Nat) (hr : self.m_is_initialized = true) :
    d3d_resize_buffers_hook host self swap_chain buffer_count w h format flags
      = if self.m_is_d3d12 then
          ({ self with
              m_is_initialized := false
              m_d3d12_frame_contexts := []
              m_d3d12_back_buffers := none
              m_d3d12_srv_heap := none
              m_d3d12_command_list := none
              m_d3d12_fence := none
              m_d3d12_fence_value := 0
              m_d3d12_buffer_count := 0 },
            [.log .debug "ResizeBuffers called, resetting...",
              .log .debug "Uninitializing D3D12 ImGui", .ImGui_ImplDX12_Shutdown,
              .ImGui_ImplWin32_Shutdown, .prm_shutdown,
              .resize_buffers_call swap_chain buffer_count w h format flags],
            host.resize_buffers_original swap_chain buffer_count w h format flags)
        else
          ({ self with
              m_is_initialized := false
              m_d3d11_device_context := none
              m_d3d11_device := none },
            [.log .debug "ResizeBuffers called, resetting...", .ImGui_ImplDX11_Shutdown,
              .ImGui_ImplWin32_Shutdown, .prm_shutdown,
              .resize_buffers_call swap_chain buffer_count w h format flags],
            host.resize_buffers_original swap_chain buffer_count w h format flags) := by
  cases hb : self.m_is_d3d12 <;>
    simp [d3d_resize_buffers_hook, hr, hb, d3d12_deinitialize_imgui, d3d11_deinitialize_imgui]

/-- The statement of C7 at a Ready D3D12 module with two frame contexts. -/
theorem d3d_resize_buffers_hook_ready_witness :
    ready_module.m_is_initialized = true
      ∧ d3d_resize_buffers_hook {} ready_module 1 3 1920 1080 28 0
        = ({ ready_module with
              m_is_initialized := false
              m_d3d12_frame_contexts := []
              m_d3d12_back_buffers := none
              m_d3d12_srv_heap := none
              m_d3d12_command_list := none
              m_d3d12_fence := none
              m_d3d12_fence_value := 0
              m_d3d12_buffer_count := 0 },
            [.log .debug "ResizeBuffers called, resetting...",
              .log .debug "Uninitializing D3D12 ImGui", .ImGui_ImplDX12_Shutdown,
              .ImGui_ImplWin32_Shutdown, .prm_shutdown,
              .resize_buffers_call 1 3 1920 1080 28 0], (0 : Int)) :=
  ⟨rfl, d3d_resize_buffers_hook_ready {} ready_module 1 3 1920 1080 28 0 rfl⟩

/-- C8 (the claim as stated fails): on an Uninitialized module the resize hook still asks the
primitive-rendering module to release its resources. -/
theorem d3d_resize_buffers_hook_uninitialized_notifies_prm :
    ({} : D3DModule).m_is_initialized = false
      ∧ Event.prm_shutdown ∈ (d3d_resize_buffers_hook {} {} 1 3 1920 1080 28 0).2.1 :=
  ⟨rfl, by simp [d3d_resize_buffers_hook]⟩

/-- C8 (amended): when the module is Uninitialized, one activation of `d3d_resize_buffers_hook`
runs neither deinitialize step and leaves every field of the module unchanged; it notifies
`PrimitiveRenderingModule::shutdown` once (as on every resize), then calls the original resize
function exactly once with the arguments it received and returns its result. -/
theorem d3d_resize_buffers_hook_uninitialized (host : Host) (self : D3DModule)
    (swap_chain : Handle) (buffer_count w h format flags : Nat)
    (hu : self.m_is_initialized = false) :
    d3d_resize_buffers_hook host self swap_chain buffer_count w h format flags
      = (self,
          [.log .debug "ResizeBuffers called, resetting...", .prm_shutdown,
            .resize_buffers_call swap_chain buffer_count w h format flags],
          host.resize_buffers_original swap_chain buffer_count w h format flags) := by
  simp [d3d_resize_buffers_hook, hu]

/-- The amended statement of C8 at a module whose earlier initialization attempt failed. -/
theorem d3d_resize_buffers_hook_uninitialized_witness :
    stale_module.m_is_initialized = false
      ∧ d3d_resize_buffers_hook {} stale_module 1 3 1920 1080 28 0
        = (stale_module,
            [.log .debug "ResizeBuffers called, resetting...", .prm_shutdown,
              .resize_buffers_call 1 3 1920 1080 28 0], (0 : Int)) :=
  ⟨rfl, d3d_resize_buffers_hook_uninitialized {} stale_module 1 3 1920 1080 28 0 rfl⟩

/-! ## The present hooks -/

/-- C1: when the reentrancy guard `m_is_inside_present` is already set on entry,
`d3d12_present_hook` and `d3d11_present_hook` leave every field of the module as it was, perform
exactly one action, namely the call of the original present function with the received
`swap_chain`, `sync_interval` and `flags` (so no initialization and no draw submission), and
return the result of that call. -/
theorem present_hook_inside_present_forwards (host : Host) (self : D3DModule)
    (swap_chain : Handle) (sync_interval flags : Nat)
    (h : self.m_is_inside_present = true) :
    d3d12_present_hook host self swap_chain sync_interval flags
        = (self, [Event.present_call swap_chain sync_interval flags],
            host.present_original swap_chain sync_interval flags)
      ∧ d3d11_present_hook host self swap_chain sync_interval flags
        = (self, [Event.present_call swap_chain sync_interval flags],
            host.present_original swap_chain sync_interval flags) := by
  constructor
  · simp [d3d12_present_hook, h]
  · simp [d3d11_present_hook, h]

/-- The statement of C1 at a module that is inside a present call, was initialised before and
knows a command queue. -/
theorem present_hook_inside_present_forwards_witness :
    ({ m_is_inside_present := true, m_is_initialized := true,
        m_d3d12_command_queue := some 7 } : D3DModule).m_is_inside_present = true
      ∧ (d3d12_present_hook {}
            { m_is_inside_present := true, m_is_initialized := true,
              m_d3d12_command_queue := some 7 } 1 2 3
          = ({ m_is_inside_present := true, m_is_initialized := true,
                m_d3d12_command_queue := some 7 },
              [Event.present_call 1 2 3], (0 : Int))
        ∧ d3d11_present_hook {}
            { m_is_inside_present := true, m_is_initialized := true,
              m_d3d12_command_queue := some 7 } 1 2 3
          = ({ m_is_inside_present := true, m_is_initialized := true,
                m_d3d12_command_queue := some 7 },
              [Event.present_call 1 2 3], (0 : Int))) :=
  ⟨rfl, present_hook_inside_present_forwards {} _ 1 2 3 rfl⟩

/-- C3 (evaluation of the code where it departs from the claim): entered with the reentrancy
guard clear, `d3d12_present_hook` returns with the guard still set when it takes the early
return for an unknown command queue, and when it takes the early return for a host facility
state above 5.  The context-capture probe clears the guard on both of these paths. -/
theorem d3d12_present_hook_early_return_leaves_guard_set :
    ({ m_is_initialized := true } : D3DModule).m_is_inside_present = false
      ∧ d3d12_present_hook {} { m_is_initialized := true } 1 0 0
        = ({ m_is_initialized := true, m_is_inside_present := true },
            [Event.present_call 1 0 0], (0 : Int))
      ∧ d3d12_present_hook { facility_state := some 6 }
          { m_is_initialized := true, m_d3d12_command_queue := some 7 } 1 0 0
        = ({ m_is_initialized := true, m_d3d12_command_queue := some 7,
              m_is_inside_present := true },
            [Event.present_call 1 0 0], (0 : Int))
      ∧ d3d12_present_hook_alt {} { m_is_initialized := true } 1
        = ({ m_is_initialized := true }, [])
      ∧ d3d12_present_hook_alt { facility_state := some 6 }
          { m_is_initialized := true, m_d3d12_command_queue := some 7 } 1
        = ({ m_is_initialized := true, m_d3d12_command_queue := some 7 }, []) :=
  ⟨rfl, rfl, rfl, rfl, rfl⟩

/-- C4 (evaluation of the code where it departs from the claim): on a module that knows a command
queue, an activation whose `d3d12_initialize_imgui` attempt fails at `GetDevice` still runs the
whole sequence of `d3d12_present_hook_core`, with `m_is_initialized` false, an empty vector of
frame contexts and no command list; this holds for `d3d12_present_hook` and for the
context-capture probe alike. -/
theorem d3d12_present_hook_core_runs_after_failed_initialize :
    (d3d12_initialize_imgui failing_host { sample_module with m_is_inside_present := true }
        1).1.m_is_initialized = false
      ∧ d3d12_present_hook failing_host sample_module 1 0 0
        = ({ sample_module with
              m_texture_manager := some (TextureManager.d3d12 none (some 7) none) },
            [.GetDevice 1, .log .error "Failed to get D3D12 device in present hook",
              .texture_manager_new,
              .ImGui_ImplDX12_NewFrame, .ImGui_ImplWin32_NewFrame, .core_imgui_render,
              .CommandAllocator_Reset none, .CommandList_Reset none none,
              .ResourceBarrier none none .PRESENT .RENDER_TARGET,
              .OMSetRenderTargets none 0, .SetDescriptorHeaps none none,
              .ImGui_ImplDX12_RenderDrawData none none,
              .ResourceBarrier none none .RENDER_TARGET .PRESENT,
              .CommandList_Close none, .ExecuteCommandLists (some 7) none,
              .present_call 1 0 0], (0 : Int))
      ∧ d3d12_present_hook_alt failing_host sample_module 1
        = ({ sample_module with
              m_texture_manager := some (TextureManager.d3d12 none (some 7) none) },
            [.GetDevice 1, .log .error "Failed to get D3D12 device in present hook",
              .texture_manager_new,
              .ImGui_ImplDX12_NewFrame, .ImGui_ImplWin32_NewFrame, .core_imgui_render,
              .CommandAllocator_Reset none, .CommandList_Reset none none,
              .ResourceBarrier none none .PRESENT .RENDER_TARGET,
              .OMSetRenderTargets none 0, .SetDescriptorHeaps none none,
              .ImGui_ImplDX12_RenderDrawData none none,
              .ResourceBarrier none none .RENDER_TARGET .PRESENT,
              .CommandList_Close none, .ExecuteCommandLists (some 7) none]) :=
  ⟨rfl, rfl, rfl⟩

/-- C9 (evaluation of the code where it departs from the claim): on a module that knows no command
queue, a `d3d12_present_hook` activation whose initialization fails at `GetDevice` takes the
early return that leaves the reentrancy guard set; the next `d3d12_present_hook` activation then
only forwards and does not call `d3d12_initialize_imgui` again, even on a host where it would
succeed.  Through the context-capture probe the next activation does retry. -/
theorem d3d12_present_hook_no_retry_after_failed_initialize :
    d3d12_present_hook failing_host {} 1 0 0
        = ({ m_is_inside_present := true,
              m_texture_manager := some (TextureManager.d3d12 none none none) },
            [.GetDevice 1, .log .error "Failed to get D3D12 device in present hook",
              .texture_manager_new, .present_call 1 0 0], (0 : Int))
      ∧ d3d12_present_hook (sample_host 2) (d3d12_present_hook failing_host {} 1 0 0).1 1 0 0
        = ({ m_is_inside_present := true,
              m_texture_manager := some (TextureManager.d3d12 none none none) },
            [.present_call 1 0 0], (0 : Int))
      ∧ d3d12_present_hook_alt failing_host {} 1
        = ({ m_texture_manager := some (TextureManager.d3d12 none none none) },
            [.GetDevice 1, .log .error "Failed to get D3D12 device in present hook",
              .texture_manager_new])
      ∧ d3d12_present_hook_alt failing_host (d3d12_present_hook_alt failing_host {} 1).1 1
        = ({ m_texture_manager := some (TextureManager.d3d12 none none none) },
            [.GetDevice 1, .log .error "Failed to get D3D12 device in present hook"]) :=
  ⟨rfl, rfl, rfl, rfl⟩

/-! ## The tracked command queue -/

theorem d3d12_present_hook_keeps_queue (host : Host) (self : D3DModule) (swap_chain : Handle)
    (sync_interval flags : Nat) :
    (d3d12_present_hook host self swap_chain sync_interval flags).1.m_d3d12_command_queue
      = self.m_d3d12_command_queue := by
  unfold d3d12_present_hook
  simp only []
  repeat' split
  all_goals simp [d3d12_initialize_imgui_keeps]

theorem d3d11_present_hook_keeps_queue (host : Host) (self : D3DModule) (swap_chain : Handle)
    (sync_interval flags : Nat) :
    (d3d11_present_hook host self swap_chain sync_interval flags).1.m_d3d12_command_queue
      = self.m_d3d12_command_queue := by
  unfold d3d11_present_hook
  simp only []
  repeat' split
  all_goals simp [d3d11_initialize_imgui_keeps]

theorem d3d12_present_hook_alt_keeps_queue (host : Host) (self : D3DModule)
    (swap_chain : Handle) :
    (d3d12_present_hook_alt host self swap_chain).1.m_d3d12_command_queue
      = self.m_d3d12_command_queue := by
  unfold d3d12_present_hook_alt
  simp only []
  repeat' split
  all_goals simp [d3d12_initialize_imgui_keeps]

theorem d3d11_present_hook_alt_keeps_queue (host : Host) (self : D3DModule)
    (swap_chain : Handle) :
    (d3d11_present_hook_alt host self swap_chain).1.m_d3d12_command_queue
      = self.m_d3d12_command_queue := by
  unfold d3d11_present_hook_alt
  simp only []
  repeat' split
  all_goals simp [d3d11_initialize_imgui_keeps]

theorem d3d_resize_buffers_hook_keeps_queue (host : Host) (self : D3DModule)
    (swap_chain : Handle) (buffer_count w h format flags : Nat) :
    (d3d_resize_buffers_hook host self swap_chain buffer_count w h format
        flags).1.m_d3d12_command_queue = self.m_d3d12_command_queue := by
  unfold d3d_resize_buffers_hook d3d12_deinitialize_imgui d3d11_deinitialize_imgui
  simp only []
  repeat' split
  all_goals simp

theorem d3d12_signal_hook_keeps_queue (host : Host) (self : D3DModule) (command_queue : Handle)
    (fence : Option Handle) (value : Nat) :
    (d3d12_signal_hook host self command_queue fence value).1.m_d3d12_command_queue
      = self.m_d3d12_command_queue := by
  unfold d3d12_signal_hook
  simp only []
  split <;> simp

/-- The queue after one activation: kept when one is known, otherwise the queue of the activation
when it is a submission on a direct queue. -/
theorem apply_command_queue (a : Activation) (self : D3DModule) :
    (a.apply self).1.m_d3d12_command_queue
      = match self.m_d3d12_command_queue with
        | some q => some q
        | none => first_direct_queue [a] := by
  cases a with
  | d3d12_present host sc si fl =>
    simp only [Activation.apply, d3d12_present_hook_keeps_queue, first_direct_queue]
    cases self.m_d3d12_command_queue <;> rfl
  | d3d11_present host sc si fl =>
    simp only [Activation.apply, d3d11_present_hook_keeps_queue, first_direct_queue]
    cases self.m_d3d12_command_queue <;> rfl
  | d3d12_present_alt host sc =>
    simp only [Activation.apply, d3d12_present_hook_alt_keeps_queue, first_direct_queue]
    cases self.m_d3d12_command_queue <;> rfl
  | d3d11_present_alt host sc =>
    simp only [Activation.apply, d3d11_present_hook_alt_keeps_queue, first_direct_queue]
    cases self.m_d3d12_command_queue <;> rfl
  | resize_buffers host sc bc w h fmt fl =>
    simp only [Activation.apply, d3d_resize_buffers_hook_keeps_queue, first_direct_queue]
    cases self.m_d3d12_command_queue <;> rfl
  | signal host q fence value =>
    simp only [Activation.apply, d3d12_signal_hook_keeps_queue, first_direct_queue]
    cases self.m_d3d12_command_queue <;> rfl
  | execute_command_lists host q n l =>
    simp only [Activation.apply, d3d12_execute_command_lists_hook, first_direct_queue]
    cases hq : self.m_d3d12_command_queue with
    | some q0 => simp [hq]
    | none =>
      cases ht : host.queue_type q <;> cases htm : self.m_texture_manager <;> simp [hq, ht, htm]

theorem run_command_queue (acts : List Activation) (self : D3DModule) :
    (self.run acts).1.m_d3d12_command_queue
      = match self.m_d3d12_command_queue with
        | some q => some q
        | none => first_direct_queue acts := by
  induction acts generalizing self with
  | nil =>
    simp only [run, first_direct_queue]
    cases self.m_d3d12_command_queue <;> rfl
  | cons a rest ih =>
    simp only [run]
    rw [ih, apply_command_queue]
    cases hq : self.m_d3d12_command_queue with
    | some q0 => rfl
    | none =>
      cases a with
      | execute_command_lists host q n l =>
        simp only [first_direct_queue]
        by_cases ht : host.queue_type q = D3D12_COMMAND_LIST_TYPE.DIRECT <;> simp [ht]
      | _ => simp only [first_direct_queue]

theorem run_append (pre post : List Activation) (self : D3DModule) :
    (self.run (pre ++ post)).1 = ((self.run pre).1.run post).1 := by
  induction pre generalizing self with
  | nil => rfl
  | cons a rest ih =>
    show ((a.apply self).1.run (rest ++ post)).1 = (((a.apply self).1.run rest).1.run post).1
    exact ih _

/-- C10: for every finite sequence of hook activations (present hooks and probes, resize,
command submission, signal) starting from a module with no tracked queue, the tracked queue
afterwards is the target queue of the earliest command-submission activation on a queue of
direct type, or still none if there is none; once a prefix of the sequence has set the tracked
queue, the rest of the sequence does not replace it; and every
`d3d12_execute_command_lists_hook` activation, in any state, calls the original exactly once
with the arguments it received. -/
theorem command_queue_is_first_direct_queue (self : D3DModule) (acts : List Activation)
    (h : self.m_d3d12_command_queue = none) :
    (self.run acts).1.m_d3d12_command_queue = first_direct_queue acts
      ∧ (∀ pre post, acts = pre ++ post →
          (self.run pre).1.m_d3d12_command_queue ≠ none →
          (self.run acts).1.m_d3d12_command_queue = (self.run pre).1.m_d3d12_command_queue)
      ∧ ∀ (host : Host) (s : D3DModule) (command_queue num_command_lists command_lists : Nat),
          (d3d12_execute_command_lists_hook host s command_queue num_command_lists
              command_lists).2.filter Event.is_execute_command_lists_call
            = [Event.execute_command_lists_call command_queue num_command_lists
                command_lists] := by
  refine ⟨?_, ?_, ?_⟩
  · rw [run_command_queue, h]
  · intro pre post hsplit hset
    rw [hsplit, run_append, run_command_queue]
    cases hq : (self.run pre).1.m_d3d12_command_queue with
    | none => exact absurd hq hset
    | some q => rfl
  · intro host s q n l
    unfold d3d12_execute_command_lists_hook
    simp only []
    repeat' split
    all_goals simp [Event.is_execute_command_lists_call]

/-- The statement of C10 on a sequence in which a compute queue submits before the direct queue
`7`, and another direct queue `9` and a resize come later: the tracked queue is `7`. -/
theorem command_queue_is_first_direct_queue_witness :
    ({} : D3DModule).m_d3d12_command_queue = none
      ∧ first_direct_queue sample_activations = some 7
      ∧ (({} : D3DModule).run sample_activations).1.m_d3d12_command_queue
        = first_direct_queue sample_activations
      ∧ (∀ pre post, sample_activations = pre ++ post →
          (({} : D3DModule).run pre).1.m_d3d12_command_queue ≠ none →
          (({} : D3DModule).run sample_activations).1.m_d3d12_command_queue
            = (({} : D3DModule).run pre).1.m_d3d12_command_queue)
      ∧ ∀ (host : Host) (s : D3DModule) (command_queue num_command_lists command_lists : Nat),
          (d3d12_execute_command_lists_hook host s command_queue num_command_lists
              command_lists).2.filter Event.is_execute_command_lists_call
            = [Event.execute_command_lists_call command_queue num_command_lists
                command_lists] :=
  ⟨rfl, rfl, command_queue_is_first_direct_queue {} sample_activations rfl⟩

/-! ## The context-capture probes -/

/-- C18: for the two context-capture present probes (installed by `initialize_for_d3d12_alt` and
by `initialize_for_d3d11_alt`): when the reentrancy guard is set on entry the probe returns at
once, with every field of the module unchanged and no event at all (hence no draw submission);
when the guard is clear on entry it is clear again on return, on every path, the D3D12 early
returns for an unknown command queue and for a host facility state above 5 included. -/
theorem present_hook_alt_guard (host : Host) (self : D3DModule) (swap_chain : Handle) :
    (self.m_is_inside_present = true →
        d3d12_present_hook_alt host self swap_chain = (self, [])
          ∧ d3d11_present_hook_alt host self swap_chain = (self, []))
      ∧ (self.m_is_inside_present = false →
        (d3d12_present_hook_alt host self swap_chain).1.m_is_inside_present = false
          ∧ (d3d11_present_hook_alt host self swap_chain).1.m_is_inside_present = false) := by
  refine ⟨fun h => ⟨?_, ?_⟩, fun h => ⟨?_, ?_⟩⟩
  · simp [d3d12_present_hook_alt, h]
  · simp [d3d11_present_hook_alt, h]
  · unfold d3d12_present_hook_alt
    simp only [h]
    repeat' split
    all_goals first
      | contradiction
      | rfl
  · unfold d3d11_present_hook_alt
    simp only [h]
    repeat' split
    all_goals first
      | contradiction
      | rfl

/-- The statement of C18 at a module inside a present call, and at a Ready module that knows no
command queue (the early return of the D3D12 probe). -/
theorem present_hook_alt_guard_witness :
    ({ m_is_inside_present := true, m_d3d12_command_queue := some 7 }
        : D3DModule).m_is_inside_present = true
      ∧ ({ m_is_initialized := true } : D3DModule).m_is_inside_present = false
      ∧ (d3d12_present_hook_alt (sample_host 2)
            { m_is_inside_present := true, m_d3d12_command_queue := some 7 } 1
          = ({ m_is_inside_present := true, m_d3d12_command_queue := some 7 }, [])
        ∧ d3d11_present_hook_alt (sample_host 2)
            { m_is_inside_present := true, m_d3d12_command_queue := some 7 } 1
          = ({ m_is_inside_present := true, m_d3d12_command_queue := some 7 }, []))
      ∧ ((d3d12_present_hook_alt (sample_host 2) { m_is_initialized := true }
            1).1.m_is_inside_present = false
        ∧ (d3d11_present_hook_alt (sample_host 2) { m_is_initialized := true }
            1).1.m_is_inside_present = false) :=
  ⟨rfl, rfl,
    (present_hook_alt_guard (sample_host 2)
      { m_is_inside_present := true, m_d3d12_command_queue := some 7 } 1).1 rfl,
    (present_hook_alt_guard (sample_host 2) { m_is_initialized := true } 1).2 rfl⟩

/-! ## The frame sequence -/

/-- C17 (the claim as stated fails): in one run of `d3d12_present_hook_core` the draw data is
produced by the render callback (`m_core_imgui_render`) before the command allocator is reset
and before the descriptor heap is bound, not after them. -/
theorem d3d12_present_hook_core_produces_draw_data_first :
    d3d12_present_hook_core (sample_host 2) ready_module 1
        = [.ImGui_ImplDX12_NewFrame, .ImGui_ImplWin32_NewFrame, .core_imgui_render,
            .CommandAllocator_Reset (some 12), .CommandList_Reset (some 13) (some 12),
            .ResourceBarrier (some 13) (some 100) .PRESENT .RENDER_TARGET,
            .OMSetRenderTargets (some 13) 4096, .SetDescriptorHeaps (some 13) (some 11),
            .ImGui_ImplDX12_RenderDrawData (some 17) (some 13),
            .ResourceBarrier (some 13) (some 100) .RENDER_TARGET .PRESENT,
            .CommandList_Close (some 13), .ExecuteCommandLists (some 7) (some 13)]
      ∧ ∃ pre post,
          d3d12_present_hook_core (sample_host 2) ready_module 1
              = pre ++ [Event.core_imgui_render] ++ post
            ∧ Event.CommandAllocator_Reset (some 12) ∈ post
            ∧ Event.SetDescriptorHeaps (some 13) (some 11) ∈ post :=
  ⟨rfl, [.ImGui_ImplDX12_NewFrame, .ImGui_ImplWin32_NewFrame],
    [.CommandAllocator_Reset (some 12), .CommandList_Reset (some 13) (some 12),
      .ResourceBarrier (some 13) (some 100) .PRESENT .RENDER_TARGET,
      .OMSetRenderTargets (some 13) 4096, .SetDescriptorHeaps (some 13) (some 11),
      .ImGui_ImplDX12_RenderDrawData (some 17) (some 13),
      .ResourceBarrier (some 13) (some 100) .RENDER_TARGET .PRESENT,
      .CommandList_Close (some 13), .ExecuteCommandLists (some 7) (some 13)],
    rfl, by simp, by simp⟩

/-- C17 (amended): in a Ready state with tracked queue `queue`, for the current back buffer index
`k` with frame context `fc`, one run of `d3d12_present_hook_core` issues exactly, in this order:
the primitive rendering when enabled, the two new-frame calls, the production of the draw data
by `m_core_imgui_render`; then the reset of `fc`'s command allocator, the reset of the command
list bound to that allocator, the barrier PRESENT -> RENDER_TARGET on `fc`'s resource, the
binding of `fc`'s render-target descriptor, the binding of the shader-visible heap, the
recording of the draw data into the command list, the reverse barrier, the close of the list,
and the submission of that one list to the tracked queue (followed by the viewport update when
enabled).  Within `d3d12_present_hook`, entered with the guard clear and a facility state not
above 5, these events are followed by the single call of the original present function. -/
theorem d3d12_present_hook_core_sequence (host : Host) (self : D3DModule) (swap_chain : Handle)
    (sync_interval flags : Nat) (queue : Handle) (fc : FrameContext)
    (hready : self.m_is_initialized = true)
    (hqueue : self.m_d3d12_command_queue = some queue)
    (hslot : self.m_d3d12_frame_contexts[host.GetCurrentBackBufferIndex]? = some fc) :
    d3d12_present_hook_core host self swap_chain
        = (if host.primitive_rendering_enabled then
            [Event.core_render, .prm_render_primitives_for_d3d12 swap_chain (some queue)]
          else [])
          ++ [.ImGui_ImplDX12_NewFrame, .ImGui_ImplWin32_NewFrame, .core_imgui_render,
            .CommandAllocator_Reset fc.CommandAllocator,
            .CommandList_Reset self.m_d3d12_command_list fc.CommandAllocator,
            .ResourceBarrier self.m_d3d12_command_list fc.RenderTarget .PRESENT .RENDER_TARGET,
            .OMSetRenderTargets self.m_d3d12_command_list fc.RenderTargetDescriptor,
            .SetDescriptorHeaps self.m_d3d12_command_list self.m_d3d12_srv_heap,
            .ImGui_ImplDX12_RenderDrawData host.core_imgui_render self.m_d3d12_command_list,
            .ResourceBarrier self.m_d3d12_command_list fc.RenderTarget .RENDER_TARGET .PRESENT,
            .CommandList_Close self.m_d3d12_command_list,
            .ExecuteCommandLists (some queue) self.m_d3d12_command_list]
          ++ (if host.viewports_enabled then
            [Event.igUpdatePlatformWindows,
              .igRenderPlatformWindowsDefault self.m_d3d12_command_list]
          else [])
      ∧ (self.m_is_inside_present = false →
          (∀ state, host.facility_state = some state → state ≤ 5) →
          (d3d12_present_hook host self swap_chain sync_interval flags).2.1
            = d3d12_present_hook_core host self swap_chain
              ++ [Event.present_call swap_chain sync_interval flags]) := by
  have hget : self.m_d3d12_frame_contexts.getD host.GetCurrentBackBufferIndex {} = fc := by
    simp [List.getD_eq_getElem?_getD, hslot]
  constructor
  · unfold d3d12_present_hook_core
    simp only [hget, hqueue]
  · intro hguard hfacility
    unfold d3d12_present_hook
    simp only [hguard, hready, hqueue]
    cases hf : host.facility_state with
    | none => simp [d3d12_present_hook_core, hqueue]
    | some state =>
      have := hfacility state hf
      simp [Nat.not_lt.mpr this, d3d12_present_hook_core, hqueue]

/-- The amended statement of C17 at the Ready module with two frame contexts, back buffer `0`. -/
theorem d3d12_present_hook_core_sequence_witness :
    ready_module.m_is_initialized = true
      ∧ ready_module.m_d3d12_command_queue = some 7
      ∧ ready_module.m_d3d12_frame_contexts[(sample_host 2).GetCurrentBackBufferIndex]?
        = some { CommandAllocator := some 12, RenderTarget := some 100,
                  RenderTargetDescriptor := 4096 }
      ∧ (d3d12_present_hook (sample_host 2) ready_module 1 0 0).2.1
        = d3d12_present_hook_core (sample_host 2) ready_module 1
          ++ [Event.present_call 1 0 0] :=
  ⟨rfl, rfl, rfl,
    (d3d12_present_hook_core_sequence (sample_host 2) ready_module 1 0 0 7
      { CommandAllocator := some 12, RenderTarget := some 100, RenderTargetDescriptor := 4096 }
      rfl rfl rfl).2 rfl (fun _ h => by simp [sample_host] at h)⟩

/-! ## Start-up -/

/-- C13: when the configuration's imgui-rendering flag is false, `D3DModule::initialize` only
writes its debug line and returns: no hook is installed (no `create_inline`, no `create_mid`),
no render callback is resolved (no `get_method`), no texture internal call is registered (no
`add_internal_call`), and every field of the module is as it was. -/
theorem initialize_module_disabled (host : Host) (self : D3DModule)
    (h : host.imgui_rendering_enabled = false) :
    initialize_module host self
      = (self, [.log .debug
          "Skipping D3D module initialization because imgui rendering is disabled"]) := by
  simp [initialize_module, h]

/-- The statement of C13 at a fresh module, on a host where every callback and address would
resolve. -/
theorem initialize_module_disabled_witness :
    ({ startup_host with imgui_rendering_enabled := false } : Host).imgui_rendering_enabled
        = false
      ∧ initialize_module { startup_host with imgui_rendering_enabled := false } {}
        = ({}, [.log .debug
            "Skipping D3D module initialization because imgui rendering is disabled"]) :=
  ⟨rfl, initialize_module_disabled { startup_host with imgui_rendering_enabled := false } {} rfl⟩

/-- C15 (the claim as stated fails): when the key `D3DRender12:SwapChainPresentCall` resolves to
address 0, `initialize_for_d3d12_alt` leaves the resize-buffers hook and the signal hook
uninstalled as well, on a host where everything else would be found. -/
theorem initialize_for_d3d12_alt_missing_present_call_installs_nothing :
    ({ startup_host with get_repository_address := fun _ => 0 } : Host).get_repository_address
        "D3DRender12:SwapChainPresentCall" = 0
      ∧ (initialize_for_d3d12_alt { startup_host with get_repository_address := fun _ => 0 }
          {}).1.m_d3d_resize_buffers_hook = none
      ∧ (initialize_for_d3d12_alt { startup_host with get_repository_address := fun _ => 0 }
          {}).1.m_d3d_signal_hook = none
      ∧ (initialize_for_d3d12_alt startup_host {}).1.m_d3d_resize_buffers_hook = some 60104
      ∧ (initialize_for_d3d12_alt startup_host {}).1.m_d3d_signal_hook = some 18520 :=
  ⟨rfl, rfl, rfl, rfl, rfl⟩

/-- C15 (amended): when resolving the key `D3DRender12:SwapChainPresentCall` fails (address 0),
`initialize_for_d3d12_alt` logs the failure and returns at once: the present interception, the
resize-buffers hook and the signal hook are all left uninstalled, and no field of the module
is written. -/
theorem initialize_for_d3d12_alt_missing_present_call (host : Host) (self : D3DModule)
    (h : host.get_repository_address "D3DRender12:SwapChainPresentCall" = 0) :
    initialize_for_d3d12_alt host self
      = (self, [.get_repository_address "D3DRender12:SwapChainPresentCall",
          .log .error "Failed to find SwapChainPresentCall"]) := by
  simp [initialize_for_d3d12_alt, h]

/-- The amended statement of C15 on a host where only the repository key is missing. -/
theorem initialize_for_d3d12_alt_missing_present_call_witness :
    ({ startup_host with get_repository_address := fun _ => 0 } : Host).get_repository_address
        "D3DRender12:SwapChainPresentCall" = 0
      ∧ initialize_for_d3d12_alt { startup_host with get_repository_address := fun _ => 0 }
          { m_is_d3d12 := true }
        = ({ m_is_d3d12 := true },
            [.get_repository_address "D3DRender12:SwapChainPresentCall",
              .log .error "Failed to find SwapChainPresentCall"]) :=
  ⟨rfl, initialize_for_d3d12_alt_missing_present_call
    { startup_host with get_repository_address := fun _ => 0 } { m_is_d3d12 := true } rfl⟩

/-- C14 (evaluation of the code where it departs from the claim): when the pattern scan yields
no address (`find_first` is 0), `common_initialize` writes no failure line and does not abort:
it reads the offset through address 0, calls the routine at `0 + 4 + offset`, takes its result
as the backend kind, and goes on to install the present probe, the resize hook and the signal
hook. -/
theorem common_initialize_uses_missing_signature :
    startup_host.find_first = 0
      ∧ ( common_initialize startup_host {}).2
        = [.find_first "05 7D 14 00 4C 8B 8D D8 08 00 00 84 C0 0F B6 85 F0 08 00 00",
            .read_memory 0, .call_isD3D12 4,
            .log .debug "Found cD3DRender::isD3D12 at \x7b:p\x7d",
            .title_menu_ready_hook_reset,
            .log .debug "Initializing D3D module for \x7b\x7d",
            .log .debug "Looking for game window: \x7b\x7d",
            .FindWindowA "MONSTER HUNTER: WORLD(\x7b\x7d)",
            .RegisterClassEx 1, .CreateWindow 1,
            .get_repository_address "D3DRender12:SwapChainPresentCall",
            .GetModuleHandleA "d3d12.dll", .create_mid 4242 "d3d12_present_hook_alt",
            .get_singleton "sMhRender", .read_memory 1120, .read_memory 2280,
            .read_memory 7480, .read_memory 14968, .read_memory 4568, .read_memory 30048,
            .read_memory 9256, .log .debug "D3D12 Command Queue found at \x7b:p\x7d",
            .create_inline 60104 "d3d_resize_buffers_hook",
            .create_inline 18520 "d3d12_signal_hook",
            .DestroyWindow (some 6), .UnregisterClass 1]
      ∧ ( common_initialize startup_host {}).1.m_is_d3d12 = true
      ∧ ( common_initialize startup_host {}).1.m_d3d_present_hook_alt = some 4242 :=
  ⟨rfl, rfl, rfl, rfl⟩

/-! ## Texture operations -/

/-- C12 (the claim as stated fails): after a resize-hook activation on a Ready module the
lifecycle is not Ready, yet the texture manager built earlier still exists and, the command
queue being known, `register_texture`, `load_texture` and `unload_texture` all call into it
without any error line; and on a module with no texture manager `unload_texture` returns
without writing an error line. -/
theorem texture_operations_after_resize_reach_texture_manager :
    (d3d_resize_buffers_hook {} ready_module 1 3 1920 1080 28 0).1.m_is_initialized = false
      ∧ register_texture texture_host
          (d3d_resize_buffers_hook {} ready_module 1 3 1920 1080 28 0).1 (some 60)
        = ([.texture_manager_register_texture (some 60)], some 61)
      ∧ load_texture texture_host
          (d3d_resize_buffers_hook {} ready_module 1 3 1920 1080 28 0).1 "a.png"
        = ([.texture_manager_load_texture "a.png"], some 61)
      ∧ unload_texture (d3d_resize_buffers_hook {} ready_module 1 3 1920 1080 28 0).1 (some 61)
        = [.texture_manager_unload_texture (some 61)]
      ∧ unload_texture {} (some 61) = [] :=
  ⟨rfl, rfl, rfl, rfl, rfl⟩

/-- C12 (amended): in every state in which no texture manager has been constructed, or in which
a texture manager exists but the backend is D3D12 and no command queue is captured,
`register_texture` and `load_texture` fail: their only action is one error line and they return
the null handle, without calling into the texture manager; and in every state in which no
texture manager has been constructed `unload_texture` returns without calling into the texture
manager.  The lifecycle state is not tested by these functions. -/
theorem texture_operations_fail_without_texture_manager_or_queue (host : Host)
    (self : D3DModule) (texture handle : Option Handle) (path : String)
    (h : self.m_texture_manager = none
      ∨ (self.m_is_d3d12 = true ∧ self.m_d3d12_command_queue = none)) :
    (∃ msg, register_texture host self texture = ([.log .error msg], none))
      ∧ (∃ msg, load_texture host self path = ([.log .error msg], none))
      ∧ (self.m_texture_manager = none → unload_texture self handle = []) := by
  refine ⟨?_, ?_, ?_⟩
  · unfold register_texture
    cases htm : self.m_texture_manager with
    | none => exact ⟨_, rfl⟩
    | some tm =>
      rcases h with h | ⟨h1, h2⟩
      · simp [htm] at h
      · simp [h1, h2]
  · unfold load_texture
    cases htm : self.m_texture_manager with
    | none => exact ⟨_, rfl⟩
    | some tm =>
      rcases h with h | ⟨h1, h2⟩
      · simp [htm] at h
      · simp [h1, h2]
  · intro htm
    simp [unload_texture, htm]

/-- The amended statement of C12 at a fresh module, and at a D3D12 module whose texture manager
exists while no command queue is known. -/
theorem texture_operations_fail_without_texture_manager_or_queue_witness :
    (({} : D3DModule).m_texture_manager = none
        ∨ (({} : D3DModule).m_is_d3d12 = true ∧ ({} : D3DModule).m_d3d12_command_queue = none))
      ∧ ((∃ msg, register_texture texture_host {} (some 60) = ([.log .error msg], none))
        ∧ (∃ msg, load_texture texture_host {} "a.png" = ([.log .error msg], none))
        ∧ (({} : D3DModule).m_texture_manager = none → unload_texture {} (some 61) = []))
      ∧ register_texture texture_host
          { m_is_d3d12 := true, m_texture_manager := some (TextureManager.d3d12 none none none) }
          (some 60)
        = ([.log .error "Cannot register texture during Buffer Resize event (D3D12)"], none) :=
  ⟨Or.inl rfl,
    texture_operations_fail_without_texture_manager_or_queue texture_host {} (some 60) (some 61)
      "a.png" (Or.inl rfl),
    rfl⟩

/-! ## The recorded fence and the backend kind -/

theorem d3d12_present_hook_keeps_backend_and_fence (host : Host) (self : D3DModule)
    (swap_chain : Handle) (sync_interval flags : Nat) :
    (d3d12_present_hook host self swap_chain sync_interval flags).1.m_is_d3d12
        = self.m_is_d3d12
      ∧ (d3d12_present_hook host self swap_chain sync_interval flags).1.m_d3d12_fence
        = self.m_d3d12_fence
      ∧ (d3d12_present_hook host self swap_chain sync_interval flags).1.m_d3d12_fence_value
        = self.m_d3d12_fence_value := by
  unfold d3d12_present_hook
  simp only []
  repeat' split
  all_goals simp [d3d12_initialize_imgui_keeps]

theorem d3d11_present_hook_keeps_backend_and_fence (host : Host) (self : D3DModule)
    (swap_chain : Handle) (sync_interval flags : Nat) :
    (d3d11_present_hook host self swap_chain sync_interval flags).1.m_is_d3d12
        = self.m_is_d3d12
      ∧ (d3d11_present_hook host self swap_chain sync_interval flags).1.m_d3d12_fence
        = self.m_d3d12_fence
      ∧ (d3d11_present_hook host self swap_chain sync_interval flags).1.m_d3d12_fence_value
        = self.m_d3d12_fence_value := by
  unfold d3d11_present_hook
  simp only []
  repeat' split
  all_goals simp [d3d11_initialize_imgui_keeps]

theorem d3d12_present_hook_alt_keeps_backend_and_fence (host : Host) (self : D3DModule)
    (swap_chain : Handle) :
    (d3d12_present_hook_alt host self swap_chain).1.m_is_d3d12 = self.m_is_d3d12
      ∧ (d3d12_present_hook_alt host self swap_chain).1.m_d3d12_fence = self.m_d3d12_fence
      ∧ (d3d12_present_hook_alt host self swap_chain).1.m_d3d12_fence_value
        = self.m_d3d12_fence_value := by
  unfold d3d12_present_hook_alt
  simp only []
  repeat' split
  all_goals simp [d3d12_initialize_imgui_keeps]

theorem d3d11_present_hook_alt_keeps_backend_and_fence (host : Host) (self : D3DModule)
    (swap_chain : Handle) :
    (d3d11_present_hook_alt host self swap_chain).1.m_is_d3d12 = self.m_is_d3d12
      ∧ (d3d11_present_hook_alt host self swap_chain).1.m_d3d12_fence = self.m_d3d12_fence
      ∧ (d3d11_present_hook_alt host self swap_chain).1.m_d3d12_fence_value
        = self.m_d3d12_fence_value := by
  unfold d3d11_present_hook_alt
  simp only []
  repeat' split
  all_goals simp [d3d11_initialize_imgui_keeps]

theorem d3d12_execute_command_lists_hook_keeps_backend_and_fence (host : Host)
    (self : D3DModule) (command_queue num_command_lists command_lists : Nat) :
    (d3d12_execute_command_lists_hook host self command_queue num_command_lists
        command_lists).1.m_is_d3d12 = self.m_is_d3d12
      ∧ (d3d12_execute_command_lists_hook host self command_queue num_command_lists
        command_lists).1.m_d3d12_fence = self.m_d3d12_fence
      ∧ (d3d12_execute_command_lists_hook host self command_queue num_command_lists
        command_lists).1.m_d3d12_fence_value = self.m_d3d12_fence_value := by
  unfold d3d12_execute_command_lists_hook
  simp only []
  repeat' split
  all_goals simp

theorem d3d_resize_buffers_hook_fence (host : Host) (self : D3DModule) (swap_chain : Handle)
    (buffer_count w h format flags : Nat) :
    ((d3d_resize_buffers_hook host self swap_chain buffer_count w h format
          flags).1.m_d3d12_fence,
        (d3d_resize_buffers_hook host self swap_chain buffer_count w h format
          flags).1.m_d3d12_fence_value)
      = if self.m_is_initialized && self.m_is_d3d12 then (none, 0)
        else (self.m_d3d12_fence, self.m_d3d12_fence_value) := by
  cases hi : self.m_is_initialized <;> cases hb : self.m_is_d3d12 <;>
    simp [d3d_resize_buffers_hook, hi, hb, d3d12_deinitialize_imgui, d3d11_deinitialize_imgui]

theorem d3d12_signal_hook_fence (host : Host) (self : D3DModule) (command_queue : Handle)
    (fence : Option Handle) (value : Nat) :
    ((d3d12_signal_hook host self command_queue fence value).1.m_d3d12_fence,
        (d3d12_signal_hook host self command_queue fence value).1.m_d3d12_fence_value)
      = if self.m_d3d12_command_queue = some command_queue then (fence, value)
        else (self.m_d3d12_fence, self.m_d3d12_fence_value) := by
  unfold d3d12_signal_hook
  simp only []
  split <;> rfl

/-- C11 (the claim as stated fails): a resize-hook activation on a Ready D3D12 module, which is
not a signal, changes the recorded pair from `(30, 9)` to `(null, 0)`. -/
theorem d3d_resize_buffers_hook_resets_fence :
    (ready_module.m_d3d12_fence, ready_module.m_d3d12_fence_value) = (some 30, 9)
      ∧ (((Activation.resize_buffers {} 1 3 1920 1080 28 0).apply ready_module).1.m_d3d12_fence,
          ((Activation.resize_buffers {} 1 3 1920 1080 28 0).apply
            ready_module).1.m_d3d12_fence_value) = (none, 0) :=
  ⟨rfl, rfl⟩

/-- C11 (amended): for every state and every hook activation (present hooks and probes, resize,
command submission, signal), the pair (`m_d3d12_fence`, `m_d3d12_fence_value`) after the
activation differs from the pair before it only if the activation is `d3d12_signal_hook` on a
queue equal to the tracked queue, in which case the pair becomes exactly the observed
`(fence, value)`, or if it is `d3d_resize_buffers_hook` on an initialized D3D12 module, in which
case `d3d12_deinitialize_imgui` resets the pair to `(null, 0)`; a signal on any other queue
leaves the pair unchanged; and the signal hook always makes the single call of the original
for the same arguments and returns its result. -/
theorem synchronization_state_after_activation (a : Activation) (self : D3DModule) :
    ((a.apply self).1.m_d3d12_fence, (a.apply self).1.m_d3d12_fence_value)
        = (match a with
          | .signal _ command_queue fence value =>
            if self.m_d3d12_command_queue = some command_queue then (fence, value)
            else (self.m_d3d12_fence, self.m_d3d12_fence_value)
          | .resize_buffers _ _ _ _ _ _ _ =>
            if self.m_is_initialized && self.m_is_d3d12 then (none, 0)
            else (self.m_d3d12_fence, self.m_d3d12_fence_value)
          | _ => (self.m_d3d12_fence, self.m_d3d12_fence_value))
      ∧ ∀ (host : Host) (s : D3DModule) (command_queue : Handle) (fence : Option Handle)
          (value : Nat),
          (d3d12_signal_hook host s command_queue fence value).2
            = ([Event.signal_call command_queue fence value],
                host.signal_original command_queue fence value) := by
  constructor
  · cases a with
    | d3d12_present host sc si fl =>
      simp only [Activation.apply, d3d12_present_hook_keeps_backend_and_fence]
    | d3d11_present host sc si fl =>
      simp only [Activation.apply, d3d11_present_hook_keeps_backend_and_fence]
    | d3d12_present_alt host sc =>
      simp only [Activation.apply, d3d12_present_hook_alt_keeps_backend_and_fence]
    | d3d11_present_alt host sc =>
      simp only [Activation.apply, d3d11_present_hook_alt_keeps_backend_and_fence]
    | execute_command_lists host q n l =>
      simp only [Activation.apply, d3d12_execute_command_lists_hook_keeps_backend_and_fence]
    | resize_buffers host sc bc w h fmt fl =>
      exact d3d_resize_buffers_hook_fence host self sc bc w h fmt fl
    | signal host q fence value =>
      exact d3d12_signal_hook_fence host self q fence value
  · intro host s q fence value
    unfold d3d12_signal_hook
    simp only []
    split <;> rfl

/-! ## Backend detection -/

theorem load_custom_fonts_no_call_isD3D12 (k i : Nat) :
    (load_custom_fonts k i).filter Event.is_call_isD3D12 = [] := by
  induction k generalizing i with
  | zero => simp [load_custom_fonts]
  | succ k ih => simp [load_custom_fonts, Event.is_call_isD3D12, ih]

theorem imgui_load_fonts_no_call_isD3D12 (host : Host) (self : D3DModule) :
    (imgui_load_fonts host self).2.filter Event.is_call_isD3D12 = [] := by
  unfold imgui_load_fonts
  split <;> simp [Event.is_call_isD3D12, load_custom_fonts_no_call_isD3D12]

theorem create_render_target_views_no_call_isD3D12 (host : Host) (size k i handle : Nat)
    (v : List FrameContext) :
    (create_render_target_views host size k i handle v).2.2.filter Event.is_call_isD3D12
      = [] := by
  induction k generalizing i handle v with
  | zero => simp [create_render_target_views]
  | succ k ih =>
    unfold create_render_target_views
    split
    · simp [Event.is_call_isD3D12]
    · simp [Event.is_call_isD3D12, ih]

theorem d3d12_initialize_imgui_no_call_isD3D12 (host : Host) (self : D3DModule)
    (swap_chain : Handle) :
    (d3d12_initialize_imgui host self swap_chain).2.filter Event.is_call_isD3D12 = [] := by
  unfold d3d12_initialize_imgui
  simp only []
  repeat' split
  all_goals
    simp [Event.is_call_isD3D12, imgui_load_fonts_no_call_isD3D12,
      create_render_target_views_no_call_isD3D12]

theorem d3d11_initialize_imgui_no_call_isD3D12 (host : Host) (self : D3DModule)
    (swap_chain : Handle) :
    (d3d11_initialize_imgui host self swap_chain).2.filter Event.is_call_isD3D12 = [] := by
  unfold d3d11_initialize_imgui
  simp only []
  repeat' split
  all_goals simp [Event.is_call_isD3D12, imgui_load_fonts_no_call_isD3D12]

theorem d3d12_present_hook_core_no_call_isD3D12 (host : Host) (self : D3DModule)
    (swap_chain : Handle) :
    (d3d12_present_hook_core host self swap_chain).filter Event.is_call_isD3D12 = [] := by
  unfold d3d12_present_hook_core
  simp only []
  repeat' split
  all_goals simp [Event.is_call_isD3D12]

theorem d3d11_present_hook_core_no_call_isD3D12 (host : Host) (self : D3DModule) :
    (d3d11_present_hook_core host self).filter Event.is_call_isD3D12 = [] := by
  unfold d3d11_present_hook_core
  simp only []
  repeat' split
  all_goals simp [Event.is_call_isD3D12]

/-- No hook activation invokes the backend-check routine or changes the backend kind. -/
theorem apply_keeps_backend (a : Activation) (self : D3DModule) :
    (a.apply self).1.m_is_d3d12 = self.m_is_d3d12
      ∧ (a.apply self).2.filter Event.is_call_isD3D12 = [] := by
  cases a with
  | d3d12_present host sc si fl =>
    refine ⟨(d3d12_present_hook_keeps_backend_and_fence host self sc si fl).1, ?_⟩
    simp only [Activation.apply]
    unfold d3d12_present_hook
    simp only []
    repeat' split
    all_goals
      simp [Event.is_call_isD3D12, d3d12_initialize_imgui_no_call_isD3D12,
        d3d12_present_hook_core_no_call_isD3D12]
  | d3d11_present host sc si fl =>
    refine ⟨(d3d11_present_hook_keeps_backend_and_fence host self sc si fl).1, ?_⟩
    simp only [Activation.apply]
    unfold d3d11_present_hook
    simp only []
    repeat' split
    all_goals
      simp [Event.is_call_isD3D12, d3d11_initialize_imgui_no_call_isD3D12,
        d3d11_present_hook_core_no_call_isD3D12]
  | d3d12_present_alt host sc =>
    refine ⟨(d3d12_present_hook_alt_keeps_backend_and_fence host self sc).1, ?_⟩
    simp only [Activation.apply]
    unfold d3d12_present_hook_alt
    simp only []
    repeat' split
    all_goals
      simp [Event.is_call_isD3D12, d3d12_initialize_imgui_no_call_isD3D12,
        d3d12_present_hook_core_no_call_isD3D12]
  | d3d11_present_alt host sc =>
    refine ⟨(d3d11_present_hook_alt_keeps_backend_and_fence host self sc).1, ?_⟩
    simp only [Activation.apply]
    unfold d3d11_present_hook_alt
    simp only []
    repeat' split
    all_goals
      simp [Event.is_call_isD3D12, d3d11_initialize_imgui_no_call_isD3D12,
        d3d11_present_hook_core_no_call_isD3D12]
  | execute_command_lists host q n l =>
    refine ⟨(d3d12_execute_command_lists_hook_keeps_backend_and_fence host self q n l).1, ?_⟩
    simp only [Activation.apply]
    unfold d3d12_execute_command_lists_hook
    simp only []
    repeat' split
    all_goals simp [Event.is_call_isD3D12]
  | resize_buffers host sc bc w h fmt fl =>
    simp only [Activation.apply]
    unfold d3d_resize_buffers_hook d3d12_deinitialize_imgui d3d11_deinitialize_imgui
    simp only []
    repeat' split
    all_goals simp [Event.is_call_isD3D12]
  | signal host q fence value =>
    simp only [Activation.apply]
    unfold d3d12_signal_hook
    simp only []
    repeat' split
    all_goals simp [Event.is_call_isD3D12]

/-- No operation invokes the backend-check routine or changes the backend kind. -/
theorem operation_keeps_backend (o : Operation) (self : D3DModule) :
    (o.apply self).1.m_is_d3d12 = self.m_is_d3d12
      ∧ (o.apply self).2.filter Event.is_call_isD3D12 = [] := by
  cases o with
  | hook a => exact apply_keeps_backend a self
  | register_texture host texture =>
    simp only [Operation.apply]
    unfold register_texture
    repeat' split
    all_goals simp [Event.is_call_isD3D12]
  | load_texture host path =>
    simp only [Operation.apply]
    unfold load_texture
    repeat' split
    all_goals simp [Event.is_call_isD3D12]
  | unload_texture handle =>
    simp only [Operation.apply]
    unfold unload_texture
    repeat' split
    all_goals simp [Event.is_call_isD3D12]
  | my_window_proc host hwnd msg wparam lparam =>
    simp only [Operation.apply]
    unfold my_window_proc
    simp only []
    repeat' split
    all_goals simp [Event.is_call_isD3D12]

theorem initialize_for_d3d12_alt_no_call_isD3D12 (host : Host) (self : D3DModule) :
    (initialize_for_d3d12_alt host self).2.filter Event.is_call_isD3D12 = []
      ∧ (initialize_for_d3d12_alt host self).1.m_is_d3d12 = self.m_is_d3d12 := by
  unfold initialize_for_d3d12_alt
  simp only []
  repeat' split
  all_goals simp [Event.is_call_isD3D12]

theorem initialize_for_d3d11_alt_no_call_isD3D12 (host : Host) (self : D3DModule) :
    (initialize_for_d3d11_alt host self).2.filter Event.is_call_isD3D12 = []
      ∧ (initialize_for_d3d11_alt host self).1.m_is_d3d12 = self.m_is_d3d12 := by
  unfold initialize_for_d3d11_alt
  simp only []
  repeat' split
  all_goals simp [Event.is_call_isD3D12]

/-- C16: for every finite sequence of present, resize, command-submission and signal hook
activations, texture operations and window-procedure calls, the backend kind `m_is_d3d12`
afterwards is the one before and the backend-check routine is not invoked; the detection is
made by `common_initialize`, which `title_menu_ready_hook` runs once per activation: one
activation invokes the routine exactly once, takes its result as the backend kind, and leaves
the title-menu hook uninstalled. -/
theorem backend_kind_detected_once (self : D3DModule) (ops : List Operation) :
    ((self.run_operations ops).1.m_is_d3d12 = self.m_is_d3d12
        ∧ (self.run_operations ops).2.filter Event.is_call_isD3D12 = [])
      ∧ ∀ (host : Host) (s : D3DModule) (gui : Handle),
          ((title_menu_ready_hook host s gui).2.filter Event.is_call_isD3D12).length = 1
            ∧ (title_menu_ready_hook host s gui).1.m_is_d3d12 = host.isD3D12
            ∧ (title_menu_ready_hook host s gui).1.m_title_menu_ready_hook = none := by
  constructor
  · induction ops generalizing self with
    | nil => exact ⟨rfl, rfl⟩
    | cons o rest ih =>
      obtain ⟨h1, h2⟩ := operation_keeps_backend o self
      obtain ⟨i1, i2⟩ := ih (o.apply self).1
      refine ⟨?_, ?_⟩
      · show ((o.apply self).1.run_operations rest).1.m_is_d3d12 = self.m_is_d3d12
        rw [i1, h1]
      · show ((o.apply self).2 ++ ((o.apply self).1.run_operations rest).2).filter
          Event.is_call_isD3D12 = []
        rw [List.filter_append, h2, i2]
        rfl
  · intro host s gui
    unfold title_menu_ready_hook common_initialize
    simp only []
    refine ⟨?_, ?_, ?_⟩
    · repeat' split
      all_goals
        simp [Event.is_call_isD3D12, initialize_for_d3d12_alt_no_call_isD3D12,
          initialize_for_d3d11_alt_no_call_isD3D12]
    · repeat' split
      all_goals
        simp [initialize_for_d3d12_alt_no_call_isD3D12,
          initialize_for_d3d11_alt_no_call_isD3D12]
    · trivial

end D3DModule
